import Mathlib

/-!
# tobe-shop server: session tokens, ownership checks and the catalog query

A shallow embedding of the Go server under `src/server` (`main.go`,
`middleware/auth.go`, `models/*.go`).  Handlers become pure functions from the
request and the store to a response and the next store.  Go strings are Lean
strings, processed character by character; unsigned ids are natural numbers.
-/

namespace TobeShop

/-! ## Go standard library -/

/-- Character form of `strings.Split(s, sep)` for a one-character separator:
the pieces between the separators, one more than the separators in `s`. -/
def splitChars (sep : Char) : List Char → List (List Char)
  | [] => [[]]
  | c :: cs =>
    if c = sep then [] :: splitChars sep cs
    else
      match splitChars sep cs with
      | [] => [[c]]
      | h :: t => (c :: h) :: t

/-- Go `strings.Split(s, sep)` with a one-character separator. -/
def Split (s : String) (sep : Char) : List String :=
  (splitChars sep s.data).map String.mk

/-- Go `strings.TrimPrefix(s, p)`. -/
def TrimPrefix (s p : String) : String :=
  if p.data.isPrefixOf s.data then String.mk (s.data.drop p.data.length) else s

/-- Value of a decimal digit character. -/
def digitVal (c : Char) : Option Nat :=
  if '0' ≤ c ∧ c ≤ '9' then some (c.toNat - '0'.toNat) else none

/-- Reads a run of decimal digits, most significant first, onto `acc`. -/
def parseDigits : List Char → Nat → Option Nat
  | [], acc => some acc
  | c :: cs, acc =>
    match digitVal c with
    | some d => parseDigits cs (acc * 10 + d)
    | none => none

/-- Reads one or more decimal digits. -/
def parseUnsigned (ds : List Char) : Option Nat :=
  if ds = [] then none else parseDigits ds 0

/-- Go `strconv.Atoi` on a 64-bit platform: an optional sign, then one or more
decimal digits, the value within the range of `int`; `none` is a non-nil error. -/
def Atoi (s : String) : Option Int :=
  match s.data with
  | '-' :: ds =>
    match parseUnsigned ds with
    | some n => if n ≤ 2 ^ 63 then some (-(n : Int)) else none
    | none => none
  | '+' :: ds =>
    match parseUnsigned ds with
    | some n => if n < 2 ^ 63 then some (n : Int) else none
    | none => none
  | ds =>
    match parseUnsigned ds with
    | some n => if n < 2 ^ 63 then some (n : Int) else none
    | none => none

/-- The verb `%d` of `fmt.Sprintf` on an unsigned integer. -/
def fmtUint (n : Nat) : List Char := Nat.toDigits 10 n

/-- The verb `%d` of `fmt.Sprintf` on a signed integer. -/
def fmtInt : Int → List Char
  | Int.ofNat n => fmtUint n
  | Int.negSucc n => '-' :: fmtUint (n + 1)

/-- Go conversion `uint(i)` of an `int` on a 64-bit platform. -/
def toUint (i : Int) : Nat := (i % (2 ^ 64 : Int)).toNat

/-! ## Session token (main.go `loginUser`, middleware/auth.go) -/

/-- The token built by `loginUser`:
`fmt.Sprintf("%d_%s_%d", user.ID, user.Username, time.Now().Unix())`. -/
def loginToken (userID : Nat) (username : String) (unix : Int) : String :=
  String.mk (fmtUint userID ++ '_' :: (username.data ++ '_' :: fmtInt unix))

/-- What `AuthMiddleware` does with a request: it writes an error response and
aborts the chain, or stores `userId` in the context and calls the next handler. -/
inductive AuthResult where
  | abort (status : Nat) (error : String)
  | next (userId : String)
  deriving DecidableEq, Repr

/-- The middleware of `middleware/auth.go`.  `findUser userID` says whether
`config.DB.First(&user, userID)` returns without error. -/
def AuthMiddleware (findUser : String → Bool) (authHeader : String) : AuthResult :=
  if authHeader = "" then
    AuthResult.abort 401 "Authorization header is required"
  else
    let parts := Split authHeader ' '
    if parts.length ≠ 2 ∨ parts.headD "" ≠ "Bearer" then
      AuthResult.abort 401 "Authorization header format must be Bearer <token>"
    else
      let tokenString := parts.getD 1 ""
      let parts := Split tokenString '_'
      if parts.length ≠ 3 then
        AuthResult.abort 401 "Invalid token format"
      else
        let userID := parts.headD ""
        if findUser userID then AuthResult.next userID
        else AuthResult.abort 401 "Invalid token"

deriving instance DecidableEq for Except

/-- The helper `getUserIDFromToken` of main.go, on the Authorization header. -/
def getUserIDFromToken (authHeader : String) : Except String Int :=
  if authHeader = "" then
    Except.error "authorization header is required"
  else
    let tokenString := TrimPrefix authHeader "Bearer "
    let parts := Split tokenString '_'
    if parts.length < 1 then
      Except.error "invalid token format"
    else
      match Atoi (parts.headD "") with
      | none => Except.error "invalid user ID in token"
      | some userID => Except.ok userID

/-! ## Data model (models/user.go, models/shop.go, models/product.go)

Times are counted in seconds, `0` being Go's zero `time.Time`; a `gorm.DeletedAt`
is `none` while the row is live.  A `float64` read from JSON is finite and is kept
as the rational it denotes.  The rows hold the columns; the profile fields of a
user that no handler below reads are left out.  The association field `Shop` of
`models.Product` is bound from a JSON body and saved by `Create`: it is the field
`Shop` of `ProductInput` below. -/

/-- Row of `models.User`. -/
structure User where
  ID : Nat
  CreatedAt : Nat
  UpdatedAt : Nat
  DeletedAt : Option Nat
  Username : String
  Email : String
  Role : String
  ShopID : Nat
  deriving DecidableEq, Repr

/-- Row of `models.Shop`. -/
structure Shop where
  ID : Nat
  CreatedAt : Nat
  UpdatedAt : Nat
  DeletedAt : Option Nat
  Name : String
  Description : String
  Logo : String
  Address : String
  UserID : Nat
  deriving DecidableEq, Repr

/-- Row of `models.Product`. -/
structure Product where
  ID : Nat
  CreatedAt : Nat
  UpdatedAt : Nat
  DeletedAt : Option Nat
  Name : String
  Description : String
  Price : Rat
  Stock : Int
  Image : String
  Category : String
  Status : String
  ShopID : Nat
  deriving DecidableEq, Repr

/-- Value of `models.Product` as `createProduct` binds it from the JSON body: the
columns, and under the key `shop` the columns of a `models.Shop` (`none` when the
key is absent or `null`).  The bodies followed here carry nothing under the key
`orderItems` (rows of a table that no handler reads) and nothing under `products`
inside the nested shop. -/
structure ProductInput extends Product where
  Shop : Option Shop
  deriving DecidableEq, Repr

/-- The tables behind `config.DB`, each in insertion order. -/
structure DB where
  users : List User
  shops : List Shop
  products : List Product
  deriving DecidableEq, Repr

/-! ## Persistence (the calls made on `config.DB`)

The store is kept in memory, so a read fails only for a missing row and a write
only for a clash of primary keys.  gorm scopes every read and write of these
tables to the live rows (`deleted_at IS NULL`).

gorm and SQLite are libraries outside `src`.  Two kinds of text reach the engine
without being parsed by the program: the condition of `First(&row, text)` when
`strconv.Atoi` rejects the text (gorm then writes the text into the `WHERE`
clause as it stands), and the parameter of `shop_id = ?` when it is no decimal
integer (SQLite converts a text that looks like a number before it compares).
What the engine does with them is taken as the parameter `Engine`. -/

/-- The SQL engine on the texts that reach it unparsed.  `firstUserWhere db text`
is the row, if any, that `SELECT * FROM users WHERE <text> AND deleted_at IS NULL
ORDER BY id LIMIT 1` returns on the store `db` (`none` also when the statement
fails), the text being read as one condition; likewise for shops and products.
`intEqText col text` is the outcome of `col = ?` for an integer column and a text
parameter that is no decimal integer. -/
structure Engine where
  firstUserWhere : DB → String → Option User
  firstShopWhere : DB → String → Option Shop
  firstProductWhere : DB → String → Option Product
  intEqText : Nat → String → Bool

/-- Primary key meant by a textual condition of `First(&row, cond)`: a text that
`strconv.Atoi` accepts is compared with the primary key, and a negative value is
the key of no row. -/
def keyOf (cond : String) : Option Nat :=
  match Atoi cond with
  | some (Int.ofNat n) => some n
  | _ => none

/-- The element with the least key, the first row under `ORDER BY id`. -/
def leastBy {α : Type} (key : α → Nat) : List α → Option α
  | [] => none
  | a :: as =>
    match leastBy key as with
    | none => some a
    | some b => if key a ≤ key b then some a else some b

/-- Call `First(&user, id)` with a numeric id: the live user with that primary key. -/
def firstUser (db : DB) (id : Nat) : Option User :=
  db.users.find? (fun u => decide (u.ID = id ∧ u.DeletedAt = none))

/-- Call `First(&shop, id)` with a numeric id. -/
def firstShop (db : DB) (id : Nat) : Option Shop :=
  db.shops.find? (fun s => decide (s.ID = id ∧ s.DeletedAt = none))

/-- Call `First(&product, id)` with a numeric id. -/
def firstProduct (db : DB) (id : Nat) : Option Product :=
  db.products.find? (fun p => decide (p.ID = id ∧ p.DeletedAt = none))

/-- Call `First(&user, cond)` with a text, as made with the context value `userId`
and with the path parameter `id`.  gorm reads a text that `strconv.Atoi` accepts
as the primary key, adds no condition for the empty text (the first live row by
id is returned) and hands any other text to the engine as a raw condition. -/
def firstUserBy (sql : Engine) (db : DB) (cond : String) : Option User :=
  match Atoi cond with
  | some _ => (keyOf cond).bind (firstUser db)
  | none =>
    if cond = "" then leastBy (fun u => u.ID) (db.users.filter fun u => decide (u.DeletedAt = none))
    else sql.firstUserWhere db cond

/-- Call `First(&shop, cond)` with a text, as made with the path parameter `id`. -/
def firstShopBy (sql : Engine) (db : DB) (cond : String) : Option Shop :=
  match Atoi cond with
  | some _ => (keyOf cond).bind (firstShop db)
  | none =>
    if cond = "" then leastBy (fun s => s.ID) (db.shops.filter fun s => decide (s.DeletedAt = none))
    else sql.firstShopWhere db cond

/-- Call `First(&product, cond)` with a text, as made with the path parameter `id`. -/
def firstProductBy (sql : Engine) (db : DB) (cond : String) : Option Product :=
  match Atoi cond with
  | some _ => (keyOf cond).bind (firstProduct db)
  | none =>
    if cond = "" then
      leastBy (fun p => p.ID) (db.products.filter fun p => decide (p.DeletedAt = none))
    else sql.firstProductWhere db cond

/-- The row that `Model(&product).Updates(u)` leaves for a struct `u`: every
non-zero field of `u` is written, the others are kept, `updated_at` is stamped. -/
def Product.updates (p u : Product) (now : Nat) : Product :=
  { ID := if u.ID ≠ 0 then u.ID else p.ID
    CreatedAt := if u.CreatedAt ≠ 0 then u.CreatedAt else p.CreatedAt
    UpdatedAt := now
    DeletedAt := if u.DeletedAt ≠ none then u.DeletedAt else p.DeletedAt
    Name := if u.Name ≠ "" then u.Name else p.Name
    Description := if u.Description ≠ "" then u.Description else p.Description
    Price := if u.Price ≠ 0 then u.Price else p.Price
    Stock := if u.Stock ≠ 0 then u.Stock else p.Stock
    Image := if u.Image ≠ "" then u.Image else p.Image
    Category := if u.Category ≠ "" then u.Category else p.Category
    Status := if u.Status ≠ "" then u.Status else p.Status
    ShopID := if u.ShopID ≠ 0 then u.ShopID else p.ShopID }

/-- Statement `UPDATE products SET ... WHERE id = p.ID AND deleted_at IS NULL`;
`none` when the new primary key is already taken by another row. -/
def updatesProduct (db : DB) (p u : Product) (now : Nat) : Option DB :=
  let q := p.updates u now
  if q.ID ≠ p.ID ∧ db.products.any (fun r => decide (r.ID = q.ID)) then none
  else
    some { db with
      products := db.products.map fun r =>
        if r.ID = p.ID ∧ r.DeletedAt = none then q else r }

/-- Call `Delete(&product)`: a soft delete,
`UPDATE products SET deleted_at = now WHERE id = p.ID AND deleted_at IS NULL`. -/
def softDeleteProduct (db : DB) (p : Product) (now : Nat) : DB :=
  { db with
    products := db.products.map fun r =>
      if r.ID = p.ID ∧ r.DeletedAt = none then { r with DeletedAt := some now } else r }

/-- The body bound by `updateShop`; a field absent from the JSON is empty. -/
structure ShopInput where
  Name : String
  Description : String
  Logo : String
  Address : String
  deriving DecidableEq, Repr

/-- The shop after `Model(&shop).Updates(updates)`, where `updates` holds the
non-empty fields of the input; `updated_at` is stamped. -/
def Shop.updates (s : Shop) (i : ShopInput) (now : Nat) : Shop :=
  { s with
    Name := if i.Name ≠ "" then i.Name else s.Name
    Description := if i.Description ≠ "" then i.Description else s.Description
    Logo := if i.Logo ≠ "" then i.Logo else s.Logo
    Address := if i.Address ≠ "" then i.Address else s.Address
    UpdatedAt := now }

/-- Statement `UPDATE shops SET ... WHERE id = s.ID AND deleted_at IS NULL`. -/
def updatesShop (db : DB) (s : Shop) (i : ShopInput) (now : Nat) : DB :=
  { db with
    shops := db.shops.map fun r =>
      if r.ID = s.ID ∧ r.DeletedAt = none then s.updates i now else r }

/-! ## Responses -/

/-- The JSON object written by a handler. -/
inductive Body where
  | error (msg : String)
  | message (msg : String)
  | product (p : Product)
  | shop (msg : String) (s : Shop)
  | user (msg : String) (u : User)
  | products (items : List Product) (totalProducts : Nat)
      (totalPages currentPage limit : Int)
  deriving DecidableEq, Repr

/-- A response: HTTP status and JSON body. -/
structure Response where
  status : Nat
  body : Body
  deriving DecidableEq, Repr

/-! ## Product and shop mutations (main.go) -/

/-- Handler `updateProduct`.  `userID` is the context value `userId`, `id` the
path parameter, `body` the columns of the product bound from the JSON body (`none`
when the binding fails), `now` the clock.  `Model(&product).Updates(updatedProduct)`
writes columns only: the nested objects of the body are not saved. -/
def updateProduct (sql : Engine) (db : DB) (now : Nat) (userID : Option String) (id : String)
    (body : Option Product) : Response × DB :=
  match userID with
  | none => (⟨401, Body.error "Unauthorized"⟩, db)
  | some userID =>
    match firstProductBy sql db id with
    | none => (⟨404, Body.error "Product not found"⟩, db)
    | some product =>
      match firstUserBy sql db userID with
      | none => (⟨500, Body.error "Failed to get user information"⟩, db)
      | some user =>
        match firstShop db product.ShopID with
        | none => (⟨500, Body.error "Failed to get shop information"⟩, db)
        | some shop =>
          if shop.UserID ≠ user.ID then
            (⟨403, Body.error "You can only update products from your own shop"⟩, db)
          else
            match body with
            | none => (⟨400, Body.error "invalid request body"⟩, db)
            | some updatedProduct =>
              let updatedProduct := { updatedProduct with ShopID := product.ShopID }
              match updatesProduct db product updatedProduct now with
              | none => (⟨500, Body.error "Failed to update product"⟩, db)
              | some db1 => (⟨200, Body.product (product.updates updatedProduct now)⟩, db1)

/-- Handler `deleteProduct`. -/
def deleteProduct (sql : Engine) (db : DB) (now : Nat) (userID : Option String) (id : String) :
    Response × DB :=
  match userID with
  | none => (⟨401, Body.error "Unauthorized"⟩, db)
  | some userID =>
    match firstProductBy sql db id with
    | none => (⟨404, Body.error "Product not found"⟩, db)
    | some product =>
      match firstUserBy sql db userID with
      | none => (⟨500, Body.error "Failed to get user information"⟩, db)
      | some user =>
        match firstShop db product.ShopID with
        | none => (⟨500, Body.error "Failed to get shop information"⟩, db)
        | some shop =>
          if shop.UserID ≠ user.ID then
            (⟨403, Body.error "You can only delete products from your own shop"⟩, db)
          else
            (⟨200, Body.message "Product deleted successfully"⟩,
              softDeleteProduct db product now)

/-- Handler `updateShop`.  `userIDValue` is the context value `userId`, `shopID`
the path parameter, `body` the bound input (`none` when the binding fails). -/
def updateShop (sql : Engine) (db : DB) (now : Nat) (userIDValue : Option String) (shopID : String)
    (body : Option ShopInput) : Response × DB :=
  match userIDValue with
  | none => (⟨401, Body.error "Unauthorized: userId not found in context"⟩, db)
  | some userIDStr =>
    match Atoi userIDStr with
    | none => (⟨500, Body.error "Failed to parse userId"⟩, db)
    | some userID =>
      match firstShopBy sql db shopID with
      | none => (⟨404, Body.error "Shop not found"⟩, db)
      | some shop =>
        if shop.UserID ≠ toUint userID then
          (⟨403, Body.error "Not authorized to update this shop"⟩, db)
        else
          match body with
          | none => (⟨400, Body.error "invalid request body"⟩, db)
          | some shopInput =>
            (⟨200, Body.shop "Shop updated successfully" (shop.updates shopInput now)⟩,
              updatesShop db shop shopInput now)

/-! ## Catalog query (main.go `getProducts`)

The database is SQLite (config/database.go). -/

/-- The query string of `GET /api/products`; `c.Query` gives `""` for an absent key. -/
structure ProductQuery where
  shopId : String
  status : String
  category : String
  search : String
  page : String
  limit : String
  sort : String
  deriving DecidableEq, Repr

/-- SQL `shop_id = ?` for the integer column and the text parameter of the query
string: a decimal integer (a text that `strconv.Atoi` accepts) is compared as that
number; what SQLite makes of any other text is the engine's answer. -/
def intEqText (sql : Engine) (col : Nat) (param : String) : Bool :=
  match Atoi param with
  | some k => decide ((col : Int) = k)
  | none => sql.intEqText col param

/-- ASCII lower case, the case folding of SQLite's `LIKE`. -/
def asciiLower (c : Char) : Char :=
  if 'A' ≤ c ∧ c ≤ 'Z' then Char.ofNat (c.toNat + 32) else c

/-- SQLite `text LIKE pattern` on characters: `%` stands for any run of characters,
`_` for any one character, any other character for itself up to ASCII case; there
is no escape character. -/
def likeChars : List Char → List Char → Bool
  | [], s => s.isEmpty
  | p :: ps, s =>
    if p = '%' then s.tails.any (fun t => likeChars ps t)
    else
      match s with
      | [] => false
      | c :: cs => (decide (p = '_') || decide (asciiLower p = asciiLower c)) && likeChars ps cs

/-- SQL `text LIKE pattern`. -/
def like (text pattern : String) : Bool := likeChars pattern.data text.data

/-- The pattern `"%" + search + "%"`. -/
def searchPattern (search : String) : String :=
  String.mk ('%' :: (search.data ++ ['%']))

/-- The conditions that `getProducts` adds with `query.Where`, in order; gorm
joins them with `AND`. -/
def whereClauses (sql : Engine) (q : ProductQuery) : List (Product → Bool) :=
  (if q.shopId ≠ "" then [fun p => intEqText sql p.ShopID q.shopId] else []) ++
  (if q.status ≠ "" then [fun p => decide (p.Status = q.status)] else []) ++
  (if q.category ≠ "" then [fun p => decide (p.Category = q.category)] else []) ++
  (if q.search ≠ "" then
    [fun p => like p.Name (searchPattern q.search) ||
      like p.Description (searchPattern q.search)] else [])

/-- Rows selected by the built query: live products meeting every condition. -/
def selected (sql : Engine) (db : DB) (q : ProductQuery) : List Product :=
  db.products.filter fun p => decide (p.DeletedAt = none) && (whereClauses sql q).all (fun c => c p)

/-- The `ORDER BY` clauses of `getProducts`. -/
inductive OrderBy where
  | priceAsc
  | priceDesc
  | nameAsc
  | createdAtDesc
  | idAsc
  deriving DecidableEq, Repr

/-- The `switch sort` of `getProducts`. -/
def orderOf (sort : String) : OrderBy :=
  if sort = "priceLow" then OrderBy.priceAsc
  else if sort = "priceHigh" then OrderBy.priceDesc
  else if sort = "name" then OrderBy.nameAsc
  else if sort = "newest" then OrderBy.createdAtDesc
  else OrderBy.idAsc

/-- Row `a` may stand before row `b` under the clause. -/
def OrderBy.before : OrderBy → Product → Product → Prop
  | OrderBy.priceAsc, a, b => a.Price ≤ b.Price
  | OrderBy.priceDesc, a, b => b.Price ≤ a.Price
  | OrderBy.nameAsc, a, b => a.Name.data ≤ b.Name.data
  | OrderBy.createdAtDesc, a, b => b.CreatedAt ≤ a.CreatedAt
  | OrderBy.idAsc, a, b => a.ID ≤ b.ID

instance (o : OrderBy) : DecidableRel o.before := fun a b => by
  cases o <;> unfold OrderBy.before <;> infer_instance

/-- Go `int` arithmetic: the result of an operation wrapped to 64 bits. -/
def wrapInt64 (i : Int) : Int := (i + 2 ^ 63) % 2 ^ 64 - 2 ^ 63

/-- The effective page: `strconv.Atoi(pageParam)` when it succeeds with a positive
value, else the default `1`. -/
def pageOf (pageParam : String) : Int :=
  if pageParam ≠ "" then
    match Atoi pageParam with
    | some pageInt => if pageInt > 0 then pageInt else 1
    | none => 1
  else 1

/-- The effective limit: as `pageOf`, with the default `18`. -/
def limitOf (limitParam : String) : Int :=
  if limitParam ≠ "" then
    match Atoi limitParam with
    | some limitInt => if limitInt > 0 then limitInt else 18
    | none => 18
  else 18

/-- Nearest integer to a rational, a tie going to the even neighbour. -/
def roundHalfEven (y : ℚ) : ℤ :=
  if y - ⌊y⌋ < 1 / 2 then ⌊y⌋
  else if 1 / 2 < y - ⌊y⌋ then ⌊y⌋ + 1
  else if ⌊y⌋ % 2 = 0 then ⌊y⌋ else ⌊y⌋ + 1

/-- The `float64` nearest to a rational: the conversion `float64(n)` of an integer
and the rounding of the exact result of a floating-point operation (IEEE 754
binary64, round to nearest, ties to even).  The significand has 53 bits; the
exponent range is not modelled, all values met here lying between `2 ^ (-63)` and
`2 ^ 63`. -/
def float64 (x : ℚ) : ℚ :=
  if x = 0 then 0
  else (roundHalfEven (|x| * 2 ^ (52 - Int.log 2 |x|)) : ℚ) * 2 ^ (Int.log 2 |x| - 52) *
    SignType.sign x

/-- Expression `int(math.Ceil(float64(count) / float64(limit)))`: two conversions,
a rounded division, the ceiling of the quotient. -/
def totalPagesOf (count : Nat) (limit : Int) : Int :=
  ⌈float64 (float64 (count : ℚ) / float64 (limit : ℚ))⌉

/-- Expression `offset := (page - 1) * limit` of `getProducts`, in Go `int`
arithmetic. -/
def offsetOf (q : ProductQuery) : Int :=
  wrapInt64 ((pageOf q.page - 1) * limitOf q.limit)

/-- Rows returned by `query.Order(o).Offset(offset).Limit(limit).Find(&products)`;
gorm writes no `OFFSET` for an offset that is not positive.  Rows that tie under
the clause come in table order. -/
def fetchPage (rows : List Product) (o : OrderBy) (offset limit : Int) : List Product :=
  ((rows.insertionSort o.before).drop offset.toNat).take limit.toNat

/-- Handler `getProducts`. -/
def getProducts (sql : Engine) (db : DB) (q : ProductQuery) : Response :=
  let rows := selected sql db q
  let count := rows.length
  let page := pageOf q.page
  let limit := limitOf q.limit
  let o := orderOf q.sort
  let offset := wrapInt64 ((page - 1) * limit)
  let products := fetchPage rows o offset limit
  let totalPages := totalPagesOf count limit
  ⟨200, Body.products products count totalPages page limit⟩

/-- Handler `getProduct`: the product of the path parameter, read with `First`. -/
def getProduct (sql : Engine) (db : DB) (id : String) : Response :=
  match firstProductBy sql db id with
  | none => ⟨404, Body.error "Product not found"⟩
  | some product => ⟨200, Body.product product⟩

/-- The three values of `models.ProductStatus`. -/
def productStatuses : List String := ["available", "unavailable", "archived"]

instance (o : OrderBy) : IsTotal Product o.before :=
  ⟨fun a b => by cases o <;> simp only [OrderBy.before] <;> exact le_total _ _⟩

instance (o : OrderBy) : IsTrans Product o.before :=
  ⟨fun a b c h1 h2 => by
    cases o <;> simp only [OrderBy.before] at h1 h2 ⊢ <;>
      first | exact le_trans h1 h2 | exact le_trans h2 h1⟩

/-- Substring test of the specification: `t` occurs as a contiguous run of
characters of `s`, up to ASCII case. -/
def containsFold (t s : String) : Prop :=
  t.data.map asciiLower <:+: s.data.map asciiLower

instance (t s : String) : Decidable (containsFold t s) := by
  unfold containsFold
  infer_instance

/-! ## Creating shops and products, users (main.go)

`Create(&shop)` and `Create(&user)` are given rows built by the handler, without
nested objects.  `Create(&product)` is given the bound body: gorm first saves its
nested shop, if any, and writes the id of that shop into the product. -/

/-- The next value of an auto-increment primary key. -/
def nextID (ids : List Nat) : Nat := ids.foldl max 0 + 1

/-- Call `First(&user, userID)` with a Go `int`. -/
def firstUserInt (db : DB) (userID : Int) : Option User :=
  match userID with
  | Int.ofNat n => firstUser db n
  | Int.negSucc _ => none

/-- Call `Where("user_id = ?", userID).First(&existingShop)`; the handler uses
only whether a row is found. -/
def firstShopOfUser (db : DB) (userID : Int) : Option Shop :=
  db.shops.find? (fun s => decide ((s.UserID : Int) = userID ∧ s.DeletedAt = none))

/-- Call `Save(&user)` on a loaded user: every column of its live row is written. -/
def saveUser (db : DB) (u : User) : DB :=
  { db with
    users := db.users.map fun r => if r.ID = u.ID ∧ r.DeletedAt = none then u else r }

/-- Handler `createShop`.  The body is bound with `name` required. -/
def createShop (db : DB) (now : Nat) (userIDValue : Option String)
    (body : Option ShopInput) : Response × DB :=
  match userIDValue with
  | none => (⟨500, Body.error "Invalid userId format in context"⟩, db)
  | some userIDStr =>
    match Atoi userIDStr with
    | none => (⟨500, Body.error "Failed to parse userId"⟩, db)
    | some userID =>
      match firstUserInt db userID with
      | none => (⟨400, Body.error "User not found"⟩, db)
      | some user =>
        match firstShopOfUser db userID with
        | some _ => (⟨400, Body.error "User already has a shop"⟩, db)
        | none =>
          match body with
          | none => (⟨400, Body.error "invalid request body"⟩, db)
          | some shopInput =>
            if shopInput.Name = "" then
              (⟨400, Body.error "Name is required"⟩, db)
            else
              let shop : Shop :=
                { ID := nextID (db.shops.map (fun r => r.ID)), CreatedAt := now,
                  UpdatedAt := now, DeletedAt := none, Name := shopInput.Name,
                  Description := shopInput.Description, Logo := shopInput.Logo,
                  Address := shopInput.Address, UserID := user.ID }
              let db1 : DB := { db with shops := db.shops ++ [shop] }
              if user.Role ≠ "seller" then
                (⟨201, Body.shop "Shop created successfully" shop⟩,
                  saveUser db1 { user with Role := "seller", ShopID := shop.ID, UpdatedAt := now })
              else
                (⟨201, Body.shop "Shop created successfully" shop⟩, db1)

/-- The nested shop of a product being created, saved before the product:
`INSERT INTO shops ... ON CONFLICT DO NOTHING`, the row getting the next id when
the body gave none and the clock for the times the body left zero.  Nothing is
written when the given id is taken.  The result is the id of the nested shop,
which gorm writes into the foreign key `ShopID` of the product, and the store. -/
def saveNestedShop (db : DB) (s : Shop) (now : Nat) : Nat × DB :=
  if s.ID ≠ 0 ∧ db.shops.any (fun r => decide (r.ID = s.ID)) then (s.ID, db)
  else
    let row : Shop :=
      { s with
        ID := if s.ID = 0 then nextID (db.shops.map (fun r => r.ID)) else s.ID
        CreatedAt := if s.CreatedAt = 0 then now else s.CreatedAt
        UpdatedAt := if s.UpdatedAt = 0 then now else s.UpdatedAt }
    (row.ID, { db with shops := db.shops ++ [row] })

/-- The product and the store after the nested shop of the body, if any, is saved. -/
def saveBeforeAssociations (db : DB) (p : ProductInput) (now : Nat) : Product × DB :=
  match p.Shop with
  | none => (p.toProduct, db)
  | some s => ({ p.toProduct with ShopID := (saveNestedShop db s now).1 },
      (saveNestedShop db s now).2)

/-- Call `Create(&product)`, one transaction: the nested shop is saved, then the
row is inserted with the next id when the body gave none and the clock for the
times the body left zero; `none`, with nothing written, when the given id is
taken. -/
def insertProduct (db : DB) (p : ProductInput) (now : Nat) : Option (Product × DB) :=
  let p1 := (saveBeforeAssociations db p now).1
  let db1 := (saveBeforeAssociations db p now).2
  if p1.ID ≠ 0 ∧ db1.products.any (fun r => decide (r.ID = p1.ID)) then none
  else
    let row : Product :=
      { p1 with
        ID := if p1.ID = 0 then nextID (db1.products.map (fun r => r.ID)) else p1.ID
        CreatedAt := if p1.CreatedAt = 0 then now else p1.CreatedAt
        UpdatedAt := if p1.UpdatedAt = 0 then now else p1.UpdatedAt }
    some (row, { db1 with products := db1.products ++ [row] })

/-- The end of `createProduct`, after the shop of the product is settled: the
default status, then the insert. -/
def createProductRow (db : DB) (now : Nat) (product : ProductInput) : Response × DB :=
  let product := if product.Status = "" then { product with Status := "available" } else product
  match insertProduct db product now with
  | none => (⟨500, Body.error "Failed to create product"⟩, db)
  | some (row, db1) => (⟨201, Body.product row⟩, db1)

/-- Handler `createProduct`. -/
def createProduct (sql : Engine) (db : DB) (now : Nat) (userID : Option String)
    (body : Option ProductInput) : Response × DB :=
  match userID with
  | none => (⟨401, Body.error "Unauthorized"⟩, db)
  | some userID =>
    match firstUserBy sql db userID with
    | none => (⟨500, Body.error "Failed to get user information"⟩, db)
    | some user =>
      if user.Role ≠ "seller" then
        (⟨403, Body.error "Only sellers can create products"⟩, db)
      else
        match body with
        | none => (⟨400, Body.error "invalid request body"⟩, db)
        | some product =>
          if product.ShopID = 0 then
            if user.ShopID = 0 then
              (⟨400, Body.error "You need to create a shop first"⟩, db)
            else
              createProductRow db now { product with ShopID := user.ShopID }
          else
            match firstShop db product.ShopID with
            | none => (⟨400, Body.error "Invalid shop ID"⟩, db)
            | some shop =>
              if shop.UserID ≠ user.ID then
                (⟨403, Body.error "You can only create products for your own shop"⟩, db)
              else
                createProductRow db now product

/-- The fields that `registerUser` reads from the JSON body; a field that is
absent or is no string is empty. -/
structure RegisterInput where
  username : String
  email : String
  password : String
  firstName : String
  lastName : String
  role : String
  deriving DecidableEq, Repr

/-- Handler `registerUser`: the required fields, the password length, the `@` of
the email, the hashing (refused beyond 72 bytes), then the insert under the unique
indexes of `username` and `email`.  The role is the given one, `buyer` when none is
given; `ShopID` is not read from the body. -/
def registerUser (db : DB) (now : Nat) (body : Option RegisterInput) : Response × DB :=
  match body with
  | none => (⟨400, Body.error "Invalid JSON format"⟩, db)
  | some r =>
    if r.username = "" ∨ r.email = "" ∨ r.password = "" ∨ r.firstName = "" ∨
        r.lastName = "" then
      (⟨400, Body.error "Missing required fields"⟩, db)
    else if r.password.utf8ByteSize < 6 then
      (⟨400, Body.error "Password must be at least 6 characters long"⟩, db)
    else if '@' ∉ r.email.data then
      (⟨400, Body.error "Invalid email format"⟩, db)
    else if 72 < r.password.utf8ByteSize then
      (⟨500, Body.error "Failed to hash password"⟩, db)
    else if db.users.any (fun u => decide (u.Username = r.username)) then
      (⟨409, Body.error "Username already exists"⟩, db)
    else if db.users.any (fun u => decide (u.Email = r.email)) then
      (⟨409, Body.error "Email already exists"⟩, db)
    else
      let user : User :=
        { ID := nextID (db.users.map (fun u => u.ID)), CreatedAt := now, UpdatedAt := now,
          DeletedAt := none, Username := r.username, Email := r.email,
          Role := if r.role ≠ "" then r.role else "buyer", ShopID := 0 }
      (⟨201, Body.user "User registered successfully" user⟩,
        { db with users := db.users ++ [user] })

/-- The body bound by `updateUser`, for the columns kept in `User`. -/
structure UserUpdate where
  username : String
  email : String
  deriving DecidableEq, Repr

/-- Handler `updateUser`: the user of the path parameter, the two checks that the
new username and email are free, then `Save`, which fails on a unique index. -/
def updateUser (sql : Engine) (db : DB) (now : Nat) (userID : String) (body : Option UserUpdate) :
    Response × DB :=
  match firstUserBy sql db userID with
  | none => (⟨404, Body.error "User not found"⟩, db)
  | some user =>
    match body with
    | none => (⟨400, Body.error "invalid request body"⟩, db)
    | some updateData =>
      if updateData.username ≠ user.Username ∧
          db.users.any (fun r => decide (r.Username = updateData.username ∧ r.DeletedAt = none))
      then (⟨400, Body.error "Username is already taken"⟩, db)
      else if updateData.email ≠ user.Email ∧
          db.users.any (fun r => decide (r.Email = updateData.email ∧ r.DeletedAt = none))
      then (⟨400, Body.error "Email is already taken"⟩, db)
      else if db.users.any (fun r => decide (r.ID ≠ user.ID ∧
          (r.Username = updateData.username ∨ r.Email = updateData.email))) then
        (⟨500, Body.error "Failed to update user"⟩, db)
      else
        let user1 : User :=
          { user with Username := updateData.username, Email := updateData.email,
                      UpdatedAt := now }
        (⟨200, Body.user "User updated successfully" user1⟩, saveUser db user1)

/-- Handler `updateUserAvatar`; the avatar itself is not kept in `User`. -/
def updateUserAvatar (sql : Engine) (db : DB) (now : Nat) (userID : String)
    (avatar : Option String) : Response × DB :=
  match firstUserBy sql db userID with
  | none => (⟨404, Body.error "User not found"⟩, db)
  | some user =>
    match avatar with
    | none => (⟨400, Body.error "invalid request body"⟩, db)
    | some a =>
      if a = "" then (⟨400, Body.error "Avatar data is required"⟩, db)
      else
        (⟨200, Body.user "Avatar updated successfully" { user with UpdatedAt := now }⟩,
          saveUser db { user with UpdatedAt := now })

/-! ## The routes that write to the store (main.go `main`) -/

/-- A request to a route whose handler writes to the store; `auth` is the
Authorization header.  The other routes (login, the reads, the order and invoice
stubs) leave the store as it is. -/
inductive Request where
  | registerUser (body : Option RegisterInput)
  | createProduct (auth : String) (body : Option ProductInput)
  | updateProduct (auth : String) (id : String) (body : Option Product)
  | deleteProduct (auth : String) (id : String)
  | createShop (auth : String) (body : Option ShopInput)
  | updateShop (auth : String) (id : String) (body : Option ShopInput)
  | updateUser (auth : String) (id : String) (body : Option UserUpdate)
  | updateUserAvatar (auth : String) (id : String) (avatar : Option String)
  deriving DecidableEq, Repr

/-- A route registered behind `middleware.AuthMiddleware()`: the handler runs with
the context value set by the middleware, or the middleware answers. -/
def guarded (sql : Engine) (db : DB) (auth : String) (handler : Option String → Response × DB) :
    Response × DB :=
  match AuthMiddleware (fun s => (firstUserBy sql db s).isSome) auth with
  | AuthResult.abort status msg => (⟨status, Body.error msg⟩, db)
  | AuthResult.next userId => handler (some userId)

/-- The server on one request. -/
def serve (sql : Engine) (db : DB) (now : Nat) : Request → Response × DB
  | Request.registerUser body => registerUser db now body
  | Request.createProduct auth body => guarded sql db auth fun u => createProduct sql db now u body
  | Request.updateProduct auth id body =>
    guarded sql db auth fun u => updateProduct sql db now u id body
  | Request.deleteProduct auth id => guarded sql db auth fun u => deleteProduct sql db now u id
  | Request.createShop auth body => guarded sql db auth fun u => createShop db now u body
  | Request.updateShop auth id body => guarded sql db auth fun u => updateShop sql db now u id body
  | Request.updateUser auth id body => guarded sql db auth fun _ => updateUser sql db now id body
  | Request.updateUserAvatar auth id avatar =>
    guarded sql db auth fun _ => updateUserAvatar sql db now id avatar

/-- An engine for the sample runs: it finds no row for a raw condition and takes
a text that is no decimal integer to equal no integer.  The sample runs are made
with decimal texts, for which no engine is consulted. -/
def plainSQL : Engine :=
  { firstUserWhere := fun _ _ => none, firstShopWhere := fun _ _ => none,
    firstProductWhere := fun _ _ => none, intEqText := fun _ _ => false }

/-- The empty store. -/
def emptyDB : DB := { users := [], shops := [], products := [] }

/-- The store after a series of requests, each with its clock reading. -/
def run (sql : Engine) (db : DB) : List (Nat × Request) → DB
  | [] => db
  | (now, req) :: rest => run sql (serve sql db now req).2 rest

/-- The stores reachable from the empty store by a series of requests. -/
inductive Reachable (sql : Engine) : DB → Prop where
  | empty : Reachable sql emptyDB
  | step (db : DB) (now : Nat) (req : Request) :
      Reachable sql db → Reachable sql (serve sql db now req).2

/-- The items of a catalog response. -/
def itemsOf (r : Response) : List Product :=
  match r.body with
  | Body.products items _ _ _ _ => items
  | _ => []

/-- The query with the page set to the number `p`. -/
def withPage (q : ProductQuery) (p : Nat) : ProductQuery :=
  { q with page := String.mk (fmtUint p) }

/-! ## Sample data -/

/-- A seller, owner of shop 3. -/
def alice : User :=
  { ID := 7, CreatedAt := 10, UpdatedAt := 10, DeletedAt := none, Username := "alice",
    Email := "alice@example.com", Role := "seller", ShopID := 3 }

/-- A buyer without a shop. -/
def bob : User :=
  { ID := 8, CreatedAt := 11, UpdatedAt := 11, DeletedAt := none, Username := "bob",
    Email := "bob@example.com", Role := "buyer", ShopID := 0 }

/-- The shop of `alice`. -/
def shop3 : Shop :=
  { ID := 3, CreatedAt := 12, UpdatedAt := 12, DeletedAt := none, Name := "Gadgets",
    Description := "", Logo := "", Address := "", UserID := 7 }

/-- A product of shop 3. -/
def lamp : Product :=
  { ID := 1, CreatedAt := 20, UpdatedAt := 20, DeletedAt := none, Name := "Lamp",
    Description := "desk lamp", Price := 30, Stock := 4, Image := "", Category := "Home",
    Status := "available", ShopID := 3 }

/-- A product of shop 3. -/
def radio : Product :=
  { ID := 2, CreatedAt := 21, UpdatedAt := 21, DeletedAt := none, Name := "radio",
    Description := "FM", Price := 20, Stock := 1, Image := "", Category := "Electronics",
    Status := "available", ShopID := 3 }

/-- A product whose shop row does not exist. -/
def orphan : Product :=
  { ID := 5, CreatedAt := 22, UpdatedAt := 22, DeletedAt := none, Name := "Orphan",
    Description := "", Price := 1, Stock := 0, Image := "", Category := "Home",
    Status := "archived", ShopID := 9 }

/-- A store with two users, one shop and three products. -/
def sampleDB : DB :=
  { users := [alice, bob], shops := [shop3], products := [lamp, radio, orphan] }

/-- A query string with no key set. -/
def noQuery : ProductQuery :=
  { shopId := "", status := "", category := "", search := "", page := "", limit := "",
    sort := "" }

/-- An Electronics product priced 30. -/
def e30 : Product :=
  { ID := 1, CreatedAt := 1, UpdatedAt := 1, DeletedAt := none, Name := "E30",
    Description := "", Price := 30, Stock := 1, Image := "", Category := "Electronics",
    Status := "available", ShopID := 3 }

/-- An Electronics product priced 10. -/
def e10 : Product :=
  { ID := 2, CreatedAt := 2, UpdatedAt := 2, DeletedAt := none, Name := "E10",
    Description := "", Price := 10, Stock := 1, Image := "", Category := "Electronics",
    Status := "available", ShopID := 3 }

/-- An Electronics product priced 50. -/
def e50 : Product :=
  { ID := 3, CreatedAt := 3, UpdatedAt := 3, DeletedAt := none, Name := "E50",
    Description := "", Price := 50, Stock := 1, Image := "", Category := "Electronics",
    Status := "available", ShopID := 3 }

/-- An Electronics product priced 20. -/
def e20 : Product :=
  { ID := 4, CreatedAt := 4, UpdatedAt := 4, DeletedAt := none, Name := "E20",
    Description := "", Price := 20, Stock := 1, Image := "", Category := "Electronics",
    Status := "available", ShopID := 3 }

/-- An Electronics product priced 40. -/
def e40 : Product :=
  { ID := 5, CreatedAt := 5, UpdatedAt := 5, DeletedAt := none, Name := "E40",
    Description := "", Price := 40, Stock := 1, Image := "", Category := "Electronics",
    Status := "available", ShopID := 3 }

/-- Five Electronics products priced 30, 10, 50, 20, 40, in insertion order. -/
def electronics : List Product := [e30, e10, e50, e20, e40]

/-- The store of scenario C: the five Electronics products and one product of
another category. -/
def electronicsDB : DB :=
  { users := [alice], shops := [shop3], products := electronics ++ [{ lamp with ID := 6 }] }

/-- The registration of a user who asks for the role `seller`. -/
def carolInput : RegisterInput :=
  { username := "carol", email := "carol@example.com", password := "secret1",
    firstName := "Carol", lastName := "C", role := "seller" }

/-- The registration of a user who gives no role. -/
def daveInput : RegisterInput :=
  { username := "dave", email := "dave@example.com", password := "secret2",
    firstName := "Dave", lastName := "D", role := "" }

/-- A shop body with a name. -/
def shopBody : ShopInput := { Name := "Corner", Description := "", Logo := "", Address := "" }

/-- A product body that gives a name and a price and nothing else. -/
def newProduct : Product :=
  { ID := 0, CreatedAt := 0, UpdatedAt := 0, DeletedAt := none, Name := "Kettle",
    Description := "", Price := 15, Stock := 0, Image := "", Category := "",
    Status := "", ShopID := 0 }

/-- The same as a body of `createProduct`, without a nested shop. -/
def newBody : ProductInput := { toProduct := newProduct, Shop := none }

/-- A nested shop object of a product body, `{"name":"Annex","userId":1}`. -/
def annexOfUser1 : Shop :=
  { ID := 0, CreatedAt := 0, UpdatedAt := 0, DeletedAt := none, Name := "Annex",
    Description := "", Logo := "", Address := "", UserID := 1 }

/-- A nested shop object of a product body, `{"name":"Annex","userId":2}`. -/
def annexOfUser2 : Shop := { annexOfUser1 with UserID := 2 }

/-! ## Session token: issue and parse -/

/-- A text without the separator is one piece. -/
theorem splitChars_of_not_mem (sep : Char) :
    ∀ l : List Char, sep ∉ l → splitChars sep l = [l] := by
  intro l
  induction l with
  | nil => intro _; rfl
  | cons c cs ih =>
    intro h
    have hc : c ≠ sep := fun e => h (e ▸ List.mem_cons_self _ _)
    have hcs : sep ∉ cs := fun e => h (List.mem_cons_of_mem _ e)
    simp [splitChars, hc, ih hcs]

/-- The first piece ends at the first separator. -/
theorem splitChars_append (sep : Char) :
    ∀ a b : List Char, sep ∉ a →
      splitChars sep (a ++ sep :: b) = a :: splitChars sep b := by
  intro a
  induction a with
  | nil => intro b _; simp [splitChars]
  | cons c cs ih =>
    intro b h
    have hc : c ≠ sep := fun e => h (e ▸ List.mem_cons_self _ _)
    have hcs : sep ∉ cs := fun e => h (List.mem_cons_of_mem _ e)
    simp [splitChars, hc, ih b hcs]

/-- A character that is no decimal digit does not occur among the digits written
by `Nat.toDigitsCore`. -/
theorem not_mem_toDigitsCore (c : Char) (hc : ∀ m, m < 10 → Nat.digitChar m ≠ c) :
    ∀ (fuel n : Nat) (ds : List Char), c ∉ ds → c ∉ Nat.toDigitsCore 10 fuel n ds := by
  intro fuel
  induction fuel with
  | zero => intro n ds h; simpa [Nat.toDigitsCore] using h
  | succ fuel ih =>
    intro n ds h
    have hd : Nat.digitChar (n % 10) ≠ c := hc _ (Nat.mod_lt _ (by decide))
    unfold Nat.toDigitsCore
    dsimp only
    split_ifs
    · simp [h, hd.symm]
    · apply ih
      simp [h, hd.symm]

/-- The separator `_` is no decimal digit. -/
theorem digitChar_ne_underscore (m : Nat) (hm : m < 10) : Nat.digitChar m ≠ '_' := by
  interval_cases m <;> decide

/-- The blank is no decimal digit. -/
theorem digitChar_ne_blank (m : Nat) (hm : m < 10) : Nat.digitChar m ≠ ' ' := by
  interval_cases m <;> decide

/-- No `_` in a formatted unsigned integer. -/
theorem underscore_not_mem_fmtUint (n : Nat) : '_' ∉ fmtUint n :=
  not_mem_toDigitsCore '_' digitChar_ne_underscore _ _ [] (List.not_mem_nil _)

/-- No `_` in a formatted signed integer. -/
theorem underscore_not_mem_fmtInt (i : Int) : '_' ∉ fmtInt i := by
  cases i with
  | ofNat n => exact underscore_not_mem_fmtUint n
  | negSucc n =>
    intro h
    rcases List.mem_cons.mp h with h | h
    · exact absurd h (by decide)
    · exact underscore_not_mem_fmtUint _ h

/-- No blank in a formatted unsigned integer. -/
theorem blank_not_mem_fmtUint (n : Nat) : ' ' ∉ fmtUint n :=
  not_mem_toDigitsCore ' ' digitChar_ne_blank _ _ [] (List.not_mem_nil _)

/-- No blank in a formatted signed integer. -/
theorem blank_not_mem_fmtInt (i : Int) : ' ' ∉ fmtInt i := by
  cases i with
  | ofNat n => exact blank_not_mem_fmtUint n
  | negSucc n =>
    intro h
    rcases List.mem_cons.mp h with h | h
    · exact absurd h (by decide)
    · exact blank_not_mem_fmtUint _ h

/-- Where the defect of C1 ends: for a username without `_`, the token of
`loginUser` splits into the formatted user id, the username and the formatted
time. -/
theorem loginToken_split (userID : Nat) (username : String) (unix : Int)
    (hu : '_' ∉ username.data) :
    Split (loginToken userID username unix) '_' =
      [String.mk (fmtUint userID), username, String.mk (fmtInt unix)] := by
  unfold Split loginToken
  simp only []
  rw [splitChars_append '_' _ _ (underscore_not_mem_fmtUint userID),
    splitChars_append '_' _ _ hu,
    splitChars_of_not_mem '_' _ (underscore_not_mem_fmtInt unix)]
  rfl

/-- For a username without `_` and without blank, `AuthMiddleware` takes the
header `Bearer <token>` made from the token of `loginUser` to the store lookup of
the formatted user id. -/
theorem authMiddleware_loginToken (findUser : String → Bool) (userID : Nat)
    (username : String) (unix : Int) (hu : '_' ∉ username.data)
    (hb : ' ' ∉ username.data) :
    AuthMiddleware findUser ("Bearer " ++ loginToken userID username unix) =
      if findUser (String.mk (fmtUint userID)) then AuthResult.next (String.mk (fmtUint userID))
      else AuthResult.abort 401 "Invalid token" := by
  have htok : ' ' ∉ (loginToken userID username unix).data := by
    unfold loginToken
    simp only [List.mem_append, List.mem_cons, not_or]
    exact ⟨blank_not_mem_fmtUint userID, by decide, hb, by decide, blank_not_mem_fmtInt unix⟩
  have hsplit : Split ("Bearer " ++ loginToken userID username unix) ' ' =
      ["Bearer", loginToken userID username unix] := by
    unfold Split
    have : ("Bearer " ++ loginToken userID username unix).data =
        "Bearer".data ++ ' ' :: (loginToken userID username unix).data := by
      simp [String.data_append]
    rw [this, splitChars_append ' ' _ _ (by decide), splitChars_of_not_mem ' ' _ htok]
    rfl
  have hne : "Bearer " ++ loginToken userID username unix ≠ "" := by
    intro h
    have := congrArg String.data h
    simp [String.data_append] at this
  unfold AuthMiddleware
  simp only [hne, if_false, hsplit]
  simp [loginToken_split userID username unix hu]

/-- Reading a formatted digit gives the digit back. -/
theorem digitVal_digitChar (m : Nat) (hm : m < 10) : digitVal (Nat.digitChar m) = some m := by
  interval_cases m <;> decide

/-- The digits written by `Nat.toDigitsCore` are put before the given ones. -/
theorem toDigitsCore_eq_append :
    ∀ (fuel n : Nat) (ds : List Char),
      Nat.toDigitsCore 10 fuel n ds = Nat.toDigitsCore 10 fuel n [] ++ ds := by
  intro fuel
  induction fuel with
  | zero => intro n ds; simp [Nat.toDigitsCore]
  | succ fuel ih =>
    intro n ds
    unfold Nat.toDigitsCore
    dsimp only
    split_ifs
    · simp
    · rw [ih (n / 10) (Nat.digitChar (n % 10) :: ds), ih (n / 10) [Nat.digitChar (n % 10)]]
      simp

/-- Reading a text in two parts. -/
theorem parseDigits_append :
    ∀ (a b : List Char) (acc : Nat),
      parseDigits (a ++ b) acc = (parseDigits a acc).bind (parseDigits b) := by
  intro a
  induction a with
  | nil => intro b acc; rfl
  | cons c cs ih =>
    intro b acc
    simp only [List.cons_append, parseDigits]
    cases digitVal c with
    | none => rfl
    | some d => exact ih b _

/-- Reading the digits of `n` gives `n`, and there is at least one digit. -/
theorem parseDigits_toDigitsCore :
    ∀ (fuel n : Nat), n < fuel →
      Nat.toDigitsCore 10 fuel n [] ≠ [] ∧
      parseDigits (Nat.toDigitsCore 10 fuel n []) 0 = some n := by
  intro fuel
  induction fuel with
  | zero => intro n h; omega
  | succ fuel ih =>
    intro n h
    have hd := digitVal_digitChar (n % 10) (Nat.mod_lt _ (by decide))
    unfold Nat.toDigitsCore
    dsimp only
    split_ifs with h0
    · refine ⟨by simp, ?_⟩
      simp only [parseDigits, hd]
      congr 1
      omega
    · rw [toDigitsCore_eq_append]
      have hlt : n / 10 < fuel := by omega
      refine ⟨by simp, ?_⟩
      rw [parseDigits_append, (ih (n / 10) hlt).2]
      simp only [Option.some_bind, parseDigits, hd]
      congr 1
      omega

/-- The sign `-` is no decimal digit. -/
theorem digitChar_ne_minus (m : Nat) (hm : m < 10) : Nat.digitChar m ≠ '-' := by
  interval_cases m <;> decide

/-- The sign `+` is no decimal digit. -/
theorem digitChar_ne_plus (m : Nat) (hm : m < 10) : Nat.digitChar m ≠ '+' := by
  interval_cases m <;> decide

/-- The user id is recovered from the first segment: the formatted id of a user
reads back, through `Atoi` and as a primary key, as that id. -/
theorem keyOf_fmtUint (n : Nat) (hn : n < 2 ^ 63) :
    Atoi (String.mk (fmtUint n)) = some (n : Int) ∧ keyOf (String.mk (fmtUint n)) = some n := by
  have hp := parseDigits_toDigitsCore (n + 1) n (Nat.lt_succ_self n)
  have hminus : '-' ∉ fmtUint n :=
    not_mem_toDigitsCore '-' digitChar_ne_minus _ _ [] (List.not_mem_nil _)
  have hplus : '+' ∉ fmtUint n :=
    not_mem_toDigitsCore '+' digitChar_ne_plus _ _ [] (List.not_mem_nil _)
  have hpu : parseUnsigned (fmtUint n) = some n := by
    unfold parseUnsigned fmtUint Nat.toDigits
    rw [if_neg hp.1, hp.2]
  have hA : Atoi (String.mk (fmtUint n)) = some (n : Int) := by
    unfold Atoi
    split
    · rename_i ds heq
      simp only at heq
      exact absurd (heq ▸ List.mem_cons_self _ _) hminus
    · rename_i ds heq
      simp only at heq
      exact absurd (heq ▸ List.mem_cons_self _ _) hplus
    · simp only [hpu, hn, if_true]
  refine ⟨hA, ?_⟩
  unfold keyOf
  rw [hA]

/-- A text that `Atoi` accepts is looked up as the primary key, whatever the engine. -/
theorem firstUserBy_of_Atoi (sql : Engine) (db : DB) (cond : String) (k : Int)
    (h : Atoi cond = some k) : firstUserBy sql db cond = (keyOf cond).bind (firstUser db) := by
  unfold firstUserBy
  rw [h]

/-- A text that `Atoi` accepts is looked up as the primary key, whatever the engine. -/
theorem firstShopBy_of_Atoi (sql : Engine) (db : DB) (cond : String) (k : Int)
    (h : Atoi cond = some k) : firstShopBy sql db cond = (keyOf cond).bind (firstShop db) := by
  unfold firstShopBy
  rw [h]

/-- A text that `Atoi` accepts is looked up as the primary key, whatever the engine. -/
theorem firstProductBy_of_Atoi (sql : Engine) (db : DB) (cond : String) (k : Int)
    (h : Atoi cond = some k) :
    firstProductBy sql db cond = (keyOf cond).bind (firstProduct db) := by
  unfold firstProductBy
  rw [h]

/-- C1, the code at the failing input: for user 7 named `a_b`, `loginUser` issues
the token `7_a_b_1700000000`; it splits on `_` into four segments, so
`AuthMiddleware` answers 401 "Invalid token format" whatever the store holds,
while the sibling parser `getUserIDFromToken` reads user id 7 from the same
header. -/
theorem loginToken_underscore_name_rejected :
    loginToken 7 "a_b" 1700000000 = "7_a_b_1700000000" ∧
    Split (loginToken 7 "a_b" 1700000000) '_' = ["7", "a", "b", "1700000000"] ∧
    (∀ findUser : String → Bool,
      AuthMiddleware findUser ("Bearer " ++ loginToken 7 "a_b" 1700000000) =
        AuthResult.abort 401 "Invalid token format") ∧
    getUserIDFromToken ("Bearer " ++ loginToken 7 "a_b" 1700000000) = Except.ok 7 := by
  refine ⟨by decide, by decide, ?_, by decide⟩
  intro findUser
  rfl

/-! ## Ownership of products -/

/-- C2: for a user `U` found from the context value, a product `P` found by the
path parameter and its shop `S` found by `P.ShopID`: when `S.UserID` differs from
`U.ID`, `updateProduct` and `deleteProduct` answer 403 and return the store as it
was; when `S.UserID` equals `U.ID`, `updateProduct` does not answer 403 and
`deleteProduct` answers 200 and soft-deletes `P`. -/
theorem product_mutation_ownership (sql : Engine) (db : DB) (now : Nat) (userID id : String)
    (body : Option Product) (U : User) (P : Product) (S : Shop)
    (hP : firstProductBy sql db id = some P) (hU : firstUserBy sql db userID = some U)
    (hS : firstShop db P.ShopID = some S) :
    (S.UserID ≠ U.ID →
      updateProduct sql db now (some userID) id body =
        (⟨403, Body.error "You can only update products from your own shop"⟩, db) ∧
      deleteProduct sql db now (some userID) id =
        (⟨403, Body.error "You can only delete products from your own shop"⟩, db)) ∧
    (S.UserID = U.ID →
      (updateProduct sql db now (some userID) id body).1.status ≠ 403 ∧
      deleteProduct sql db now (some userID) id =
        (⟨200, Body.message "Product deleted successfully"⟩, softDeleteProduct db P now)) := by
  constructor
  · intro hne
    simp [updateProduct, deleteProduct, hP, hU, hS, hne]
  · intro heq
    constructor
    · simp only [updateProduct, hP, hU, hS, heq]
      cases body with
      | none => simp
      | some u =>
        simp only [ne_eq, not_true_eq_false, if_false]
        split <;> simp
    · simp [deleteProduct, hP, hU, hS, heq]

/-- C2 witness: on the sample store `bob` (id 8) is refused on product 1 of
`alice`'s shop, and `alice` (id 7) passes. -/
theorem product_mutation_ownership_witness :
    (updateProduct plainSQL sampleDB 99 (some "8") "1" none =
        (⟨403, Body.error "You can only update products from your own shop"⟩, sampleDB) ∧
      deleteProduct plainSQL sampleDB 99 (some "8") "1" =
        (⟨403, Body.error "You can only delete products from your own shop"⟩, sampleDB)) ∧
    ((updateProduct plainSQL sampleDB 99 (some "7") "1" none).1.status ≠ 403 ∧
      deleteProduct plainSQL sampleDB 99 (some "7") "1" =
        (⟨200, Body.message "Product deleted successfully"⟩,
          softDeleteProduct sampleDB lamp 99)) :=
  ⟨(product_mutation_ownership plainSQL sampleDB 99 "8" "1" none bob lamp shop3
      (by decide) (by decide) (by decide)).1 (by decide),
   (product_mutation_ownership plainSQL sampleDB 99 "7" "1" none alice lamp shop3
      (by decide) (by decide) (by decide)).2 (by decide)⟩

/-! ## Session resolver -/

/-- C3: `AuthMiddleware` calls the next handler with `userId` exactly when the
header is not empty, splits on spaces into two parts of which the first is
`Bearer`, the token splits on `_` into three segments, `userId` is the first
segment and the store lookup of it finds a user; whenever it does not call the
next handler it aborts with status 401. -/
theorem authMiddleware_fails_closed (findUser : String → Bool) (authHeader : String) :
    (∀ userId, AuthMiddleware findUser authHeader = AuthResult.next userId ↔
      (authHeader ≠ "" ∧ (Split authHeader ' ').length = 2 ∧
        (Split authHeader ' ').headD "" = "Bearer" ∧
        (Split ((Split authHeader ' ').getD 1 "") '_').length = 3 ∧
        userId = (Split ((Split authHeader ' ').getD 1 "") '_').headD "" ∧
        findUser userId = true)) ∧
    ((∀ userId, AuthMiddleware findUser authHeader ≠ AuthResult.next userId) →
      ∃ msg, AuthMiddleware findUser authHeader = AuthResult.abort 401 msg) := by
  constructor
  · intro userId
    unfold AuthMiddleware
    dsimp only
    split_ifs with h1 h2 h3 h4
    · exact ⟨fun h => (by cases h), fun h => absurd h1 h.1⟩
    · refine ⟨fun h => (by cases h), fun h => ?_⟩
      rcases h2 with h2 | h2
      · exact absurd h.2.1 h2
      · exact absurd h.2.2.1 h2
    · exact ⟨fun h => (by cases h), fun h => absurd h.2.2.2.1 h3⟩
    · constructor
      · intro h
        cases h
        exact ⟨h1, not_not.mp fun c => h2 (Or.inl c), not_not.mp fun c => h2 (Or.inr c),
          not_not.mp h3, rfl, h4⟩
      · intro h
        rw [h.2.2.2.2.1]
    · refine ⟨fun h => (by cases h), fun h => ?_⟩
      exact absurd (h.2.2.2.2.1 ▸ h.2.2.2.2.2) h4
  · intro hno
    have key : (∃ u, AuthMiddleware findUser authHeader = AuthResult.next u) ∨
        (∃ msg, AuthMiddleware findUser authHeader = AuthResult.abort 401 msg) := by
      unfold AuthMiddleware
      dsimp only
      split_ifs
      · exact Or.inr ⟨_, rfl⟩
      · exact Or.inr ⟨_, rfl⟩
      · exact Or.inr ⟨_, rfl⟩
      · exact Or.inl ⟨_, rfl⟩
      · exact Or.inr ⟨_, rfl⟩
    rcases key with ⟨u, hu⟩ | h
    · exact absurd hu (hno u)
    · exact h

/-- C3 witness: a well-formed header for a stored user reaches the handler with
`userId` 7; a header with another scheme is aborted with 401. -/
theorem authMiddleware_fails_closed_witness :
    AuthMiddleware (fun s => s == "7") "Bearer 7_alice_1700000000" = AuthResult.next "7" ∧
    ∃ msg, AuthMiddleware (fun s => s == "7") "Basic 7_alice_1700000000" =
      AuthResult.abort 401 msg :=
  ⟨((authMiddleware_fails_closed (fun s => s == "7") "Bearer 7_alice_1700000000").1 "7").mpr
      (by decide),
   (authMiddleware_fails_closed (fun s => s == "7") "Basic 7_alice_1700000000").2
      (fun userId h => by
        rw [show AuthMiddleware (fun s => s == "7") "Basic 7_alice_1700000000" =
          AuthResult.abort 401 "Authorization header format must be Bearer <token>" from
          by decide] at h
        cases h)⟩

/-- C4, the code at the failing input: the token `_a_b` has three segments, the
leading one empty, which is no unsigned decimal integer.  Once a user is stored,
`AuthMiddleware` does not refuse it: `First(&user, "")` carries no condition and
returns the first user, so the handler runs with the context value `""`; the
`createProduct` behind it resolves the same empty text to `dave`, user 1, and
creates the product in his shop.  A token with two or four segments is refused. -/
theorem token_empty_segment_resolved :
    Split "_a_b" '_' = ["", "a", "b"] ∧ Atoi "" = none ∧
    (∀ sql : Engine,
      AuthMiddleware
        (fun s => (firstUserBy sql
          (run sql emptyDB [(1, Request.registerUser (some daveInput)),
            (2, Request.createShop "Bearer 1_dave_5" (some shopBody))]) s).isSome)
        "Bearer _a_b" = AuthResult.next "") ∧
    (∀ sql : Engine,
      (serve sql (run sql emptyDB [(1, Request.registerUser (some daveInput)),
          (2, Request.createShop "Bearer 1_dave_5" (some shopBody))]) 3
        (Request.createProduct "Bearer _a_b" (some newBody))).1 =
      ⟨201, Body.product { newProduct with ID := 1, CreatedAt := 3, UpdatedAt := 3,
                                           Status := "available", ShopID := 1 }⟩) ∧
    (∀ findUser : String → Bool,
      AuthMiddleware findUser "Bearer 1_dave" = AuthResult.abort 401 "Invalid token format" ∧
      AuthMiddleware findUser "Bearer 1_dave_5_6" =
        AuthResult.abort 401 "Invalid token format") :=
  ⟨by decide, by decide, fun _ => rfl, fun _ => rfl, fun _ => ⟨rfl, rfl⟩⟩

/-! ## Ownership of shops -/

/-- A value read by `Atoi` fits Go's `int`. -/
theorem Atoi_range (s : String) (i : Int) (h : Atoi s = some i) :
    -(2 ^ 63 : Int) ≤ i ∧ i < 2 ^ 63 := by
  unfold Atoi at h
  split at h
  · split at h
    · split at h
      · cases h; constructor <;> omega
      · cases h
    · cases h
  · split at h
    · split at h
      · cases h; constructor <;> omega
      · cases h
    · cases h
  · split at h
    · split at h
      · cases h; constructor <;> omega
      · cases h
    · cases h

/-- The rounded integer is at least as near as every integer. -/
theorem roundHalfEven_nearest (y : ℚ) (z : ℤ) :
    |(roundHalfEven y : ℚ) - y| ≤ |(z : ℚ) - y| := by
  have h0 : (0 : ℚ) ≤ y - ⌊y⌋ := by linarith [Int.floor_le y]
  have h1 : y - ⌊y⌋ < 1 := by linarith [Int.lt_floor_add_one y]
  have hz : (z : ℚ) ≤ ⌊y⌋ ∨ ((⌊y⌋ : ℚ) + 1 ≤ z) := by
    rcases le_or_lt z ⌊y⌋ with h | h
    · left; exact_mod_cast h
    · right; exact_mod_cast h
  unfold roundHalfEven
  split_ifs with a b c
  · rcases hz with hz | hz
    · rw [abs_le]; constructor <;> rw [abs_of_nonpos (by linarith)] <;> linarith
    · rw [abs_le]; constructor <;> rw [abs_of_nonneg (by linarith)] <;> linarith
  · push_cast
    rcases hz with hz | hz
    · rw [abs_le]; constructor <;> rw [abs_of_nonpos (by linarith)] <;> linarith
    · rw [abs_le]; constructor <;> rw [abs_of_nonneg (by linarith)] <;> linarith
  · have he : y - ⌊y⌋ = 1 / 2 := le_antisymm (not_lt.mp b) (not_lt.mp a)
    rcases hz with hz | hz
    · rw [abs_le]; constructor <;> rw [abs_of_nonpos (by linarith)] <;> linarith
    · rw [abs_le]; constructor <;> rw [abs_of_nonneg (by linarith)] <;> linarith
  · push_cast
    have he : y - ⌊y⌋ = 1 / 2 := le_antisymm (not_lt.mp b) (not_lt.mp a)
    rcases hz with hz | hz
    · rw [abs_le]; constructor <;> rw [abs_of_nonpos (by linarith)] <;> linarith
    · rw [abs_le]; constructor <;> rw [abs_of_nonneg (by linarith)] <;> linarith


/-- Zero is kept. -/
theorem float64_zero : float64 0 = 0 := by simp [float64]

/-- The rounding of a positive rational. -/
theorem float64_of_pos (x : ℚ) (hx : 0 < x) :
    float64 x = (roundHalfEven (x * 2 ^ (52 - Int.log 2 x)) : ℚ) * 2 ^ (Int.log 2 x - 52) := by
  unfold float64
  rw [if_neg hx.ne', abs_of_pos hx, sign_pos hx]
  simp

/-- The rounded value is at least as near as every multiple of the unit in the last place. -/
theorem float64_nearest (x : ℚ) (hx : 0 < x) (z : ℤ) :
    |float64 x - x| ≤ |(z : ℚ) * 2 ^ (Int.log 2 x - 52) - x| := by
  rw [float64_of_pos x hx]
  set e := Int.log 2 x
  have hu : (0 : ℚ) < 2 ^ (e - 52) := by positivity
  have hy : x = (x * 2 ^ (52 - e)) * 2 ^ (e - 52) := by
    rw [mul_assoc, ← zpow_add₀ (by norm_num : (2 : ℚ) ≠ 0)]
    simp
  have h := roundHalfEven_nearest (x * 2 ^ (52 - e)) z
  have e1 : ∀ w : ℚ, w * 2 ^ (e - 52) - x = (w - x * 2 ^ (52 - e)) * 2 ^ (e - 52) := by
    intro w
    rw [sub_mul, ← hy]
  rw [e1, e1, abs_mul, abs_mul, abs_of_pos hu]
  exact mul_le_mul_of_nonneg_right h hu.le

/-- Relative error of rounding: at most `2 ^ (-53)`. -/
theorem float64_error (x : ℚ) (hx : 0 < x) : |float64 x - x| ≤ x * 2 ^ (-53 : ℤ) := by
  set e := Int.log 2 x with he
  have hu : (0 : ℚ) < 2 ^ (e - 52) := by positivity
  have hle : (2 : ℚ) ^ e ≤ x := by
    have := Int.zpow_log_le_self (b := 2) (by norm_num) hx
    simpa using this
  set y := x * 2 ^ (52 - e) with hyd
  have hy : x = y * 2 ^ (e - 52) := by
    rw [hyd, mul_assoc, ← zpow_add₀ (by norm_num : (2 : ℚ) ≠ 0)]
    simp
  have h1 := float64_nearest x hx ⌊y⌋
  have h2 := float64_nearest x hx (⌊y⌋ + 1)
  rw [← he] at h1 h2
  have f1 : |(⌊y⌋ : ℚ) * 2 ^ (e - 52) - x| = (y - ⌊y⌋) * 2 ^ (e - 52) := by
    rw [show (⌊y⌋ : ℚ) * 2 ^ (e - 52) - x = -((y - ⌊y⌋) * 2 ^ (e - 52)) by rw [sub_mul, ← hy]; ring,
      abs_neg, abs_of_nonneg]
    exact mul_nonneg (by linarith [Int.floor_le y]) hu.le
  have f2 : |((⌊y⌋ + 1 : ℤ) : ℚ) * 2 ^ (e - 52) - x| = (⌊y⌋ + 1 - y) * 2 ^ (e - 52) := by
    push_cast
    rw [show ((⌊y⌋ : ℚ) + 1) * 2 ^ (e - 52) - x = (⌊y⌋ + 1 - y) * 2 ^ (e - 52) by
      rw [sub_mul, ← hy], abs_of_nonneg]
    exact mul_nonneg (by linarith [Int.lt_floor_add_one y]) hu.le
  rw [f1] at h1
  rw [f2] at h2
  have hhalf : |float64 x - x| ≤ 2 ^ (e - 52) / 2 := by
    have : 2 * |float64 x - x| ≤ 2 ^ (e - 52) := by
      calc 2 * |float64 x - x| = |float64 x - x| + |float64 x - x| := by ring
        _ ≤ (y - ⌊y⌋) * 2 ^ (e - 52) + (⌊y⌋ + 1 - y) * 2 ^ (e - 52) := add_le_add h1 h2
        _ = 2 ^ (e - 52) := by ring
    linarith
  have hpow : (2 : ℚ) ^ (e - 52) / 2 = 2 ^ e * 2 ^ (-53 : ℤ) := by
    rw [show e - 52 = e + (-53) + 1 by ring, zpow_add₀ (by norm_num : (2 : ℚ) ≠ 0),
      zpow_add₀ (by norm_num : (2 : ℚ) ≠ 0)]
    simp
  rw [hpow] at hhalf
  exact hhalf.trans (mul_le_mul_of_nonneg_right hle (by positivity))

/-- Below `2 ^ 53` the rounded value is at least as near as every integer. -/
theorem float64_nearest_int (x : ℚ) (hx : 0 < x) (hlt : x < 2 ^ 53) (n : ℤ) :
    |float64 x - x| ≤ |(n : ℚ) - x| := by
  have he : Int.log 2 x < 53 := by
    rw [← Int.lt_zpow_iff_log_lt (b := 2) (by norm_num) hx]
    norm_num at hlt ⊢
    exact hlt
  obtain ⟨k, hk⟩ : ∃ k : ℕ, 52 - Int.log 2 x = k := ⟨(52 - Int.log 2 x).toNat, by omega⟩
  have h := float64_nearest x hx (n * 2 ^ k)
  have : ((n * 2 ^ k : ℤ) : ℚ) * 2 ^ (Int.log 2 x - 52) = n := by
    push_cast
    rw [mul_assoc, ← zpow_natCast, ← zpow_add₀ (by norm_num : (2 : ℚ) ≠ 0), ← hk]
    simp
  rwa [this] at h

/-- Integers up to `2 ^ 53` are kept by the conversion. -/
theorem float64_natCast (n : ℕ) (hn : n < 2 ^ 53) : float64 (n : ℚ) = n := by
  rcases Nat.eq_zero_or_pos n with h | h
  · subst h; simpa using float64_zero
  · have hx : (0 : ℚ) < n := by exact_mod_cast h
    have hlt : (n : ℚ) < 2 ^ 53 := by exact_mod_cast hn
    have := float64_nearest_int n hx hlt n
    simp only [Int.cast_natCast, sub_self, abs_zero] at this
    have := abs_nonpos_iff.mp this
    linarith


/-- The float computation of the page count is the integer ceiling, for counts
below `2 ^ 53` and limits in the range of `int`. -/
theorem totalPagesOf_eq_ceil (count : ℕ) (limit : ℤ) (hc : count < 2 ^ 53) (h1 : 1 ≤ limit)
    (h2 : limit < 2 ^ 63) : totalPagesOf count limit = ⌈(count : ℚ) / (limit : ℚ)⌉ := by
  unfold totalPagesOf
  rcases Nat.eq_zero_or_pos count with h0 | hpos
  · subst h0
    simp [float64_zero]
  have hcq : (0 : ℚ) < count := by exact_mod_cast hpos
  have hc1 : (1 : ℚ) ≤ count := by exact_mod_cast hpos
  have hcl : (count : ℚ) ≤ 2 ^ 53 - 1 := by
    have : count + 1 ≤ 2 ^ 53 := hc
    have : ((count + 1 : ℕ) : ℚ) ≤ ((2 ^ 53 : ℕ) : ℚ) := by exact_mod_cast this
    push_cast at this
    linarith
  have hlq : (1 : ℚ) ≤ limit := by exact_mod_cast h1
  have hl0 : (0 : ℚ) < limit := by linarith
  have hp : (0 : ℚ) < 2 ^ (-53 : ℤ) := by positivity
  have hpv : (2 : ℚ) ^ (-53 : ℤ) * 2 ^ 53 = 1 := by norm_num
  rw [float64_natCast count hc]
  rcases lt_or_le limit (2 ^ 53) with hsmall | hbig
  · -- the limit is converted exactly
    have hB : float64 (limit : ℚ) = limit := by
      have := float64_natCast limit.toNat (by omega)
      have hcast : ((limit.toNat : ℕ) : ℚ) = (limit : ℚ) := by
        have : ((limit.toNat : ℕ) : ℤ) = limit := Int.toNat_of_nonneg (by omega)
        exact_mod_cast this
      rwa [hcast] at this
    rw [hB]
    set q : ℚ := (count : ℚ) / limit with hq
    have hq0 : 0 < q := div_pos hcq hl0
    have hqc : q ≤ count := div_le_self hcq.le hlq
    have hq53 : q < 2 ^ 53 := by linarith
    set k := ⌈q⌉ with hk
    have hkq : q ≤ k := Int.le_ceil q
    have hk1 : ((k : ℚ) - 1) < q := by
      have := Int.ceil_lt_add_one q
      linarith
    rw [Int.ceil_eq_iff]
    constructor
    · -- lower bound from the relative error
      have hE := float64_error q hq0
      have hgap : 1 / (limit : ℚ) ≤ q - (k - 1) := by
        have hint : (k - 1) * limit + 1 ≤ (count : ℤ) := by
          have : ((k - 1 : ℤ) : ℚ) * limit < count := by
            push_cast
            have := (lt_div_iff₀ hl0).mp hk1
            linarith
          have : (k - 1) * limit < (count : ℤ) := by exact_mod_cast this
          omega
        have hintq : ((k : ℚ) - 1) * limit + 1 ≤ count := by exact_mod_cast hint
        rw [hq, div_le_iff₀ hl0, sub_mul, div_mul_cancel₀ _ hl0.ne']
        linarith
      have hsmallerr : q * 2 ^ (-53 : ℤ) < 1 / (limit : ℚ) := by
        rw [hq, div_mul_eq_mul_div, div_lt_div_iff_of_pos_right hl0]
        have : (count : ℚ) * 2 ^ (-53 : ℤ) < 2 ^ 53 * 2 ^ (-53 : ℤ) := by
          apply mul_lt_mul_of_pos_right _ hp
          linarith
        linarith [mul_comm ((2 : ℚ) ^ 53) (2 ^ (-53 : ℤ))]
      have h3 := (abs_le.mp hE).1
      have h4 : q - 1 / (limit : ℚ) < float64 q := by
        calc q - 1 / (limit : ℚ) < q - q * 2 ^ (-53 : ℤ) := sub_lt_sub_left hsmallerr q
          _ ≤ float64 q := by linarith
      calc ((k : ℚ) - 1) ≤ q - 1 / (limit : ℚ) := by linarith
        _ < float64 q := h4
    · -- upper bound: the integer `k` is a candidate
      have hN := float64_nearest_int q hq0 hq53 k
      rw [abs_of_nonneg (by linarith : (0 : ℚ) ≤ (k : ℚ) - q)] at hN
      have := (abs_le.mp hN).2
      linarith
  · -- the limit exceeds every count
    have hbq : (2 : ℚ) ^ 53 ≤ limit := by exact_mod_cast hbig
    have hE := float64_error (limit : ℚ) hl0
    have hBlow : (count : ℚ) ≤ float64 (limit : ℚ) := by
      have h3 := (abs_le.mp hE).1
      have : (limit : ℚ) * 2 ^ (-53 : ℤ) ≤ limit - (2 ^ 53 - 1) := by
        have : (limit : ℚ) * (1 - 2 ^ (-53 : ℤ)) ≥ 2 ^ 53 * (1 - 2 ^ (-53 : ℤ)) := by
          apply mul_le_mul_of_nonneg_right hbq
          norm_num
        have e : (2 : ℚ) ^ 53 * (1 - 2 ^ (-53 : ℤ)) = 2 ^ 53 - 1 := by norm_num
        linarith
      linarith
    have hB0 : (0 : ℚ) < float64 (limit : ℚ) := by linarith
    set q : ℚ := (count : ℚ) / float64 (limit : ℚ) with hq
    have hq0 : 0 < q := div_pos hcq hB0
    have hq1 : q ≤ 1 := (div_le_one hB0).mpr hBlow
    have hQ1 : float64 q ≤ 1 := by
      have hN := float64_nearest_int q hq0 (by linarith [show (1 : ℚ) < 2 ^ 53 by norm_num]) 1
      rw [Int.cast_one, abs_of_nonneg (by linarith : (0 : ℚ) ≤ 1 - q)] at hN
      have := (abs_le.mp hN).2
      linarith
    have hQ0 : 0 < float64 q := by
      have hE := float64_error q hq0
      have h3 := (abs_le.mp hE).1
      have : q * 2 ^ (-53 : ℤ) < q := by
        have : (2 : ℚ) ^ (-53 : ℤ) < 1 := by norm_num
        nlinarith
      linarith
    have hlhs : ⌈float64 q⌉ = 1 := by
      rw [Int.ceil_eq_iff]
      constructor
      · simpa using hQ0
      · simpa using hQ1
    have hrhs : ⌈(count : ℚ) / (limit : ℚ)⌉ = 1 := by
      rw [Int.ceil_eq_iff]
      constructor
      · simpa using div_pos hcq hl0
      · have : (count : ℚ) ≤ limit := by linarith
        simpa using (div_le_one hl0).mpr this
    rw [hlhs, hrhs]

/-- The integer ceiling of a quotient, by integer division. -/
theorem ceil_div_eq (count : ℕ) (limit : ℤ) (h1 : 1 ≤ limit) :
    ⌈(count : ℚ) / (limit : ℚ)⌉ = ((count : ℤ) + limit - 1) / limit := by
  have hl0 : (0 : ℚ) < limit := by exact_mod_cast (by omega : (0 : ℤ) < limit)
  have hpos : (0 : ℤ) < limit := by omega
  set z := ((count : ℤ) + limit - 1) / limit with hz
  have hle : z * limit ≤ (count : ℤ) + limit - 1 := Int.ediv_mul_le _ (by omega)
  have hlt : (count : ℤ) + limit - 1 < (z + 1) * limit := Int.lt_ediv_add_one_mul_self _ hpos
  rw [Int.ceil_eq_iff]
  constructor
  · rw [lt_div_iff₀ hl0]
    have : (z - 1) * limit < (count : ℤ) := by nlinarith
    exact_mod_cast this
  · rw [div_le_iff₀ hl0]
    have : (count : ℤ) ≤ z * limit := by nlinarith
    exact_mod_cast this

/-- The effective limit lies in the positive range of Go's `int`. -/
theorem limitOf_range (s : String) : 1 ≤ limitOf s ∧ limitOf s < 2 ^ 63 := by
  unfold limitOf
  split_ifs
  · split
    · rename_i k hk
      have := Atoi_range s k hk
      split_ifs <;> constructor <;> omega
    · constructor <;> omega
  · constructor <;> omega

/-- The effective page lies in the positive range of Go's `int`. -/
theorem pageOf_range (s : String) : 1 ≤ pageOf s ∧ pageOf s < 2 ^ 63 := by
  unfold pageOf
  split_ifs
  · split
    · rename_i k hk
      have := Atoi_range s k hk
      split_ifs <;> constructor <;> omega
    · constructor <;> omega
  · constructor <;> omega

/-- The response of `getProducts` over fewer than `2 ^ 53` selected rows, with the
page count written by integer division. -/
theorem getProducts_eval (sql : Engine) (db : DB) (q : ProductQuery)
    (h : (selected sql db q).length < 2 ^ 53) :
    getProducts sql db q =
      ⟨200, Body.products
        (fetchPage (selected sql db q) (orderOf q.sort) (offsetOf q) (limitOf q.limit))
        (selected sql db q).length
        ((((selected sql db q).length : ℤ) + limitOf q.limit - 1) / limitOf q.limit)
        (pageOf q.page) (limitOf q.limit)⟩ := by
  have hr := limitOf_range q.limit
  unfold getProducts offsetOf
  simp only []
  rw [totalPagesOf_eq_ceil _ _ h hr.1 hr.2, ceil_div_eq _ _ hr.1]

/-! ## Catalog query: the engine is consulted for a non-decimal `shopId` only -/

/-- With no `shopId`, or a decimal one, the conditions do not depend on the engine. -/
theorem whereClauses_engine (sql sql1 : Engine) (q : ProductQuery)
    (h : q.shopId = "" ∨ (Atoi q.shopId).isSome = true) :
    whereClauses sql q = whereClauses sql1 q := by
  unfold whereClauses
  rcases h with h | h
  · simp [h]
  · obtain ⟨k, hk⟩ := Option.isSome_iff_exists.mp h
    simp only [intEqText, hk]

/-- With no `shopId`, or a decimal one, the response does not depend on the engine. -/
theorem getProducts_engine (sql sql1 : Engine) (db : DB) (q : ProductQuery)
    (h : q.shopId = "" ∨ (Atoi q.shopId).isSome = true) :
    getProducts sql db q = getProducts sql1 db q := by
  unfold getProducts selected
  rw [whereClauses_engine sql sql1 q h]

/-! ## Catalog query: filters -/

/-- Membership in a fetched page comes from the selected rows. -/
theorem mem_of_mem_fetchPage (rows : List Product) (o : OrderBy) (offset limit : Int)
    (p : Product) (h : p ∈ fetchPage rows o offset limit) : p ∈ rows := by
  unfold fetchPage at h
  exact (List.perm_insertionSort o.before rows).mem_iff.mp
    (List.mem_of_mem_drop (List.mem_of_mem_take h))

/-- A pattern that starts with `%` matches when the rest matches some suffix. -/
theorem likeChars_percent (ps s : List Char) :
    likeChars ('%' :: ps) s = true ↔ ∃ t, t <:+ s ∧ likeChars ps t = true := by
  simp [likeChars, List.mem_tails]

/-- A pattern that starts with a character other than `%` consumes one character. -/
theorem likeChars_cons (p : Char) (ps : List Char) (c : Char) (cs : List Char)
    (hp : p ≠ '%') :
    likeChars (p :: ps) (c :: cs) =
      ((decide (p = '_') || decide (asciiLower p = asciiLower c)) && likeChars ps cs) := by
  simp [likeChars, hp]

/-- A pattern that starts with a character other than `%` rejects the empty text. -/
theorem likeChars_cons_nil (p : Char) (ps : List Char) (hp : p ≠ '%') :
    likeChars (p :: ps) [] = false := by
  simp [likeChars, hp]

/-- The pattern `t%` matches every text that starts with `t` up to case. -/
theorem likeChars_of_prefix (t : List Char) :
    ∀ u rest : List Char, u.map asciiLower = t.map asciiLower →
      likeChars (t ++ ['%']) (u ++ rest) = true := by
  induction t with
  | nil =>
    intro u rest h
    have hu : u = [] := by simpa using h
    subst hu
    exact (likeChars_percent [] _).mpr ⟨[], List.nil_suffix, by simp [likeChars]⟩
  | cons p t ih =>
    intro u rest h
    cases u with
    | nil => simp at h
    | cons c u =>
      simp only [List.map_cons, List.cons.injEq] at h
      by_cases hp : p = '%'
      · subst hp
        exact (likeChars_percent _ _).mpr ⟨u ++ rest, List.suffix_cons _ _, ih u rest h.2⟩
      · rw [List.cons_append, List.cons_append, likeChars_cons _ _ _ _ hp, ih u rest h.2]
        simp [h.1]

/-- Without wildcards in `t`, a text matched by `t%` starts with `t` up to case. -/
theorem prefix_of_likeChars (t : List Char) (hw : ∀ c ∈ t, c ≠ '%' ∧ c ≠ '_') :
    ∀ s : List Char, likeChars (t ++ ['%']) s = true →
      ∃ u rest, s = u ++ rest ∧ u.map asciiLower = t.map asciiLower := by
  induction t with
  | nil => intro s _; exact ⟨[], s, rfl, rfl⟩
  | cons p t ih =>
    intro s h
    have hp := hw p (List.mem_cons_self _ _)
    cases s with
    | nil =>
      rw [List.cons_append, likeChars_cons_nil _ _ hp.1] at h
      cases h
    | cons c cs =>
      rw [List.cons_append, likeChars_cons _ _ _ _ hp.1] at h
      simp only [hp.2, decide_False, Bool.false_or, Bool.and_eq_true, decide_eq_true_eq] at h
      obtain ⟨u, rest, hs, hu⟩ := ih (fun c hc => hw c (List.mem_cons_of_mem _ hc)) cs h.2
      exact ⟨c :: u, rest, by rw [hs]; rfl, by simp [hu, h.1]⟩

/-- A text that contains the term is matched by the search pattern. -/
theorem like_of_containsFold (t s : String) (h : containsFold t s) :
    like s (searchPattern t) = true := by
  obtain ⟨a, b, hab⟩ := h
  obtain ⟨l₁, rest, hl, hl₁, -⟩ := List.map_eq_append_iff.mp hab.symm
  obtain ⟨pre, u, hpre, -, hu⟩ := List.map_eq_append_iff.mp hl₁
  unfold like searchPattern
  refine (likeChars_percent _ _).mpr ⟨u ++ rest, ⟨pre, ?_⟩, likeChars_of_prefix _ u rest hu⟩
  rw [hl, hpre, List.append_assoc]

/-- Without wildcards in the term, a text matched by the search pattern contains
the term. -/
theorem containsFold_of_like (t s : String) (hw : ∀ c ∈ t.data, c ≠ '%' ∧ c ≠ '_')
    (h : like s (searchPattern t) = true) : containsFold t s := by
  unfold like searchPattern at h
  obtain ⟨tl, ⟨pre, hpre⟩, htl⟩ := (likeChars_percent _ _).mp h
  obtain ⟨u, rest, hs, hu⟩ := prefix_of_likeChars t.data hw tl htl
  refine ⟨pre.map asciiLower, rest.map asciiLower, ?_⟩
  rw [← hpre, hs, ← hu]
  simp

/-- C8, the claim at a failing input: the term `_` is no substring of the name
`Lamp` nor of the description `desk lamp`, yet the product passes the search
filter that `getProducts` builds for it. -/
theorem search_underscore_counterexample :
    ¬ ∃ sql : Engine,
      ((whereClauses sql { noQuery with search := "_" }).all (fun c => c lamp) = true ↔
        (containsFold "_" lamp.Name ∨ containsFold "_" lamp.Description)) := by
  rintro ⟨sql, h⟩
  rw [whereClauses_engine sql plainSQL _ (Or.inl rfl)] at h
  revert h
  decide

/-- C8 as amended: a product whose name or description contains the term passes
the search filter of `getProducts`; when the term has no `%` and no `_`, the
products that pass are exactly those whose name or description contains the term
(up to ASCII case). -/
theorem search_filter_substring (sql : Engine) (t : String) (p : Product) (ht : t ≠ "") :
    ((containsFold t p.Name ∨ containsFold t p.Description) →
      (whereClauses sql { noQuery with search := t }).all (fun c => c p) = true) ∧
    ((∀ c ∈ t.data, c ≠ '%' ∧ c ≠ '_') →
      ((whereClauses sql { noQuery with search := t }).all (fun c => c p) = true ↔
        (containsFold t p.Name ∨ containsFold t p.Description))) := by
  have hpass : (whereClauses sql { noQuery with search := t }).all (fun c => c p) =
      (like p.Name (searchPattern t) || like p.Description (searchPattern t)) := by
    simp [whereClauses, noQuery, ht]
  rw [hpass]
  have hfwd : (containsFold t p.Name ∨ containsFold t p.Description) →
      (like p.Name (searchPattern t) || like p.Description (searchPattern t)) = true := by
    intro h
    rcases h with h | h
    · simp [like_of_containsFold t _ h]
    · simp [like_of_containsFold t _ h]
  refine ⟨hfwd, fun hw => ⟨fun h => ?_, hfwd⟩⟩
  rcases Bool.or_eq_true _ _ ▸ h with h | h
  · exact Or.inl (containsFold_of_like t _ hw h)
  · exact Or.inr (containsFold_of_like t _ hw h)

/-- C8 witness: the term `amp` has no wildcard and occurs in the name `Lamp`. -/
theorem search_filter_substring_witness :
    ((containsFold "amp" lamp.Name ∨ containsFold "amp" lamp.Description) →
      (whereClauses plainSQL { noQuery with search := "amp" }).all (fun c => c lamp) = true) ∧
    ((whereClauses plainSQL { noQuery with search := "amp" }).all (fun c => c lamp) = true ↔
      (containsFold "amp" lamp.Name ∨ containsFold "amp" lamp.Description)) :=
  ⟨(search_filter_substring plainSQL "amp" lamp (by decide)).1,
   (search_filter_substring plainSQL "amp" lamp (by decide)).2 (by decide)⟩

/-! ## Catalog query: order -/

/-- A fetched page is ordered by its clause. -/
theorem fetchPage_sorted (rows : List Product) (o : OrderBy) (offset limit : Int) :
    (fetchPage rows o offset limit).Pairwise o.before := by
  unfold fetchPage
  exact ((List.sorted_insertionSort o.before rows).sublist (List.drop_sublist _ _)).sublist
    (List.take_sublist _ _)

/-- C9: for every `sort` text `getProducts` answers 200, and the items come in
the order chosen by the switch: price ascending for `priceLow`, price descending
for `priceHigh`, name ascending for `name`, creation time descending for `newest`,
id ascending for every other text. -/
theorem getProducts_order (sql : Engine) (db : DB) (q : ProductQuery) :
    (getProducts sql db q).status = 200 ∧
    ∀ (items : List Product) (n : Nat) (totalPages currentPage limit : Int),
      (getProducts sql db q).body = Body.products items n totalPages currentPage limit →
      (q.sort = "priceLow" → items.Pairwise (fun a b => a.Price ≤ b.Price)) ∧
      (q.sort = "priceHigh" → items.Pairwise (fun a b => b.Price ≤ a.Price)) ∧
      (q.sort = "name" → items.Pairwise (fun a b => a.Name ≤ b.Name)) ∧
      (q.sort = "newest" → items.Pairwise (fun a b => b.CreatedAt ≤ a.CreatedAt)) ∧
      (q.sort ≠ "priceLow" → q.sort ≠ "priceHigh" → q.sort ≠ "name" → q.sort ≠ "newest" →
        items.Pairwise (fun a b => a.ID ≤ b.ID)) := by
  refine ⟨rfl, ?_⟩
  intro items n totalPages currentPage limit h
  simp only [getProducts, Body.products.injEq] at h
  have hs := fetchPage_sorted (selected sql db q) (orderOf q.sort)
    (wrapInt64 ((pageOf q.page - 1) * limitOf q.limit)) (limitOf q.limit)
  rw [h.1] at hs
  refine ⟨?_, ?_, ?_, ?_, ?_⟩
  · intro hq
    rw [hq] at hs
    exact hs
  · intro hq
    rw [hq] at hs
    exact hs
  · intro hq
    rw [hq] at hs
    exact hs.imp (fun {a b} hab => String.le_iff_toList_le.mpr hab)
  · intro hq
    rw [hq] at hs
    exact hs
  · intro h1 h2 h3 h4
    have ho : orderOf q.sort = OrderBy.idAsc := by
      simp [orderOf, h1, h2, h3, h4]
    rw [ho] at hs
    exact hs

/-- C9 witness: the sample catalog under `sort=priceLow` and under an unknown
sort key. -/
theorem getProducts_order_witness :
    [orphan, radio, lamp].Pairwise (fun a b => a.Price ≤ b.Price) ∧
    [lamp, radio, orphan].Pairwise (fun a b => a.ID ≤ b.ID) :=
  ⟨((getProducts_order plainSQL sampleDB { noQuery with sort := "priceLow" }).2
      [orphan, radio, lamp] 3 1 1 18
      (by rw [getProducts_eval plainSQL _ _ (by decide)]; decide)).1 (by decide),
   ((getProducts_order plainSQL sampleDB { noQuery with sort := "cheapest" }).2
      [lamp, radio, orphan] 3 1 1 18
      (by rw [getProducts_eval plainSQL _ _ (by decide)]; decide)).2.2.2.2
      (by decide) (by decide) (by decide) (by decide)⟩

/-! ## Catalog query: page and limit -/

/-- C10: for every `page` and `limit` text `getProducts` answers 200 and reports
as `currentPage` and `limit` the effective values: the number read by `Atoi` when
it is positive, else 1 for the page and 18 for the limit, so both are at least 1;
the page is not clamped to `totalPages` (page 5 of the sample catalog, which has
one page, is reported as 5). -/
theorem getProducts_page_limit (sql : Engine) (db : DB) (q : ProductQuery) :
    (∃ items n totalPages, getProducts sql db q =
      ⟨200, Body.products items n totalPages (pageOf q.page) (limitOf q.limit)⟩) ∧
    (1 ≤ pageOf q.page ∧ 1 ≤ limitOf q.limit) ∧
    (∀ k, Atoi q.page = some k → 0 < k → pageOf q.page = k) ∧
    ((∀ k, Atoi q.page = some k → k ≤ 0) → pageOf q.page = 1) ∧
    (∀ k, Atoi q.limit = some k → 0 < k → limitOf q.limit = k) ∧
    ((∀ k, Atoi q.limit = some k → k ≤ 0) → limitOf q.limit = 18) ∧
    getProducts sql sampleDB { noQuery with page := "5" } = ⟨200, Body.products [] 3 1 5 18⟩ := by
  have hempty : Atoi "" = none := by decide
  refine ⟨⟨_, _, _, rfl⟩, ⟨?_, ?_⟩, ?_, ?_, ?_, ?_,
    by rw [getProducts_engine sql plainSQL _ _ (Or.inl rfl),
      getProducts_eval plainSQL _ _ (by decide)]; decide⟩
  · unfold pageOf
    split_ifs
    · split
      · split_ifs <;> omega
      · omega
    · omega
  · unfold limitOf
    split_ifs
    · split
      · split_ifs <;> omega
      · omega
    · omega
  · intro k hk hpos
    unfold pageOf
    split_ifs with hne
    · simp [hk, hpos]
    · rw [not_not.mp hne, hempty] at hk
      cases hk
  · intro hk
    unfold pageOf
    split_ifs with hne
    · split
      · rename_i k hk1
        have := hk k hk1
        split_ifs
        · omega
        · rfl
      · rfl
    · rfl
  · intro k hk hpos
    unfold limitOf
    split_ifs with hne
    · simp [hk, hpos]
    · rw [not_not.mp hne, hempty] at hk
      cases hk
  · intro hk
    unfold limitOf
    split_ifs with hne
    · split
      · rename_i k hk1
        have := hk k hk1
        split_ifs
        · omega
        · rfl
      · rfl
    · rfl

/-- C10 witness: `page=0` and `limit=abc` fall back to page 1 and limit 18, and
`page=2&limit=2` is taken as given. -/
theorem getProducts_page_limit_witness :
    (pageOf "0" = 1 ∧ limitOf "abc" = 18) ∧ (pageOf "2" = 2 ∧ limitOf "2" = 2) :=
  ⟨⟨(getProducts_page_limit plainSQL sampleDB { noQuery with page := "0", limit := "abc" }).2.2.2.1
      (by decide),
    (getProducts_page_limit plainSQL sampleDB { noQuery with page := "0", limit := "abc" }).2.2.2.2.2.1
      (by decide)⟩,
   ⟨(getProducts_page_limit plainSQL sampleDB { noQuery with page := "2", limit := "2" }).2.2.1 2
      (by decide) (by decide),
    (getProducts_page_limit plainSQL sampleDB { noQuery with page := "2", limit := "2" }).2.2.2.2.1 2
      (by decide) (by decide)⟩⟩

/-! ## Catalog query: offset -/

/-- C11, the claim at a failing input: with `page=4611686018427387905` and
`limit=2`, both accepted by `Atoi`, the product `(page - 1) * limit` is `2 ^ 63`
and the offset computed in Go's `int` is `-2 ^ 63`. -/
theorem offset_overflow_counterexample :
    pageOf "4611686018427387905" = 4611686018427387905 ∧ limitOf "2" = 2 ∧
    (pageOf "4611686018427387905" - 1) * limitOf "2" = 9223372036854775808 ∧
    offsetOf { noQuery with page := "4611686018427387905", limit := "2" } =
      -9223372036854775808 := by
  decide

/-- C11 as amended: whenever `(page - 1) * limit` is below `2 ^ 63` for the
effective page and limit, the offset that `getProducts` hands to the store is that
product and is not negative. -/
theorem offsetOf_exact (sql : Engine) (db : DB) (q : ProductQuery)
    (h : (pageOf q.page - 1) * limitOf q.limit < 2 ^ 63) :
    offsetOf q = (pageOf q.page - 1) * limitOf q.limit ∧ 0 ≤ offsetOf q ∧
    itemsOf (getProducts sql db q) =
      fetchPage (selected sql db q) (orderOf q.sort) (offsetOf q) (limitOf q.limit) := by
  have hp := (pageOf_range q.page).1
  have hl := (limitOf_range q.limit).1
  have h0 : 0 ≤ (pageOf q.page - 1) * limitOf q.limit :=
    mul_nonneg (by omega) (by omega)
  have he : offsetOf q = (pageOf q.page - 1) * limitOf q.limit := by
    unfold offsetOf wrapInt64
    generalize (pageOf q.page - 1) * limitOf q.limit = x at h h0
    omega
  exact ⟨he, he ▸ h0, rfl⟩

/-- C11 witness: `page=2` and `limit=2` give the offset 2. -/
theorem offsetOf_exact_witness :
    offsetOf { noQuery with page := "2", limit := "2" } =
      (pageOf "2" - 1) * limitOf "2" ∧
    0 ≤ offsetOf { noQuery with page := "2", limit := "2" } :=
  ⟨(offsetOf_exact plainSQL sampleDB { noQuery with page := "2", limit := "2" } (by decide)).1,
   (offsetOf_exact plainSQL sampleDB { noQuery with page := "2", limit := "2" } (by decide)).2.1⟩

/-! ## Catalog query: count -/

/-- The conditions of the query depend on the four filter parameters only. -/
theorem whereClauses_congr (sql : Engine) (q q' : ProductQuery) (h1 : q'.shopId = q.shopId)
    (h2 : q'.status = q.status) (h3 : q'.category = q.category)
    (h4 : q'.search = q.search) : whereClauses sql q' = whereClauses sql q := by
  unfold whereClauses
  rw [h1, h2, h3, h4]

/-- C13: for a query `q'` with the filters of `q` and any page, limit and sort,
`getProducts` reports as `totalProducts` the number of live products that meet the
conditions of `q`, and the page it returns is fetched from exactly those rows. -/
theorem totalProducts_is_filtered_count (sql : Engine) (db : DB) (q q' : ProductQuery)
    (h1 : q'.shopId = q.shopId) (h2 : q'.status = q.status)
    (h3 : q'.category = q.category) (h4 : q'.search = q.search) :
    ∃ totalPages,
      getProducts sql db q' =
        ⟨200, Body.products
          (fetchPage
            (db.products.filter fun p =>
              decide (p.DeletedAt = none) && (whereClauses sql q).all (fun c => c p))
            (orderOf q'.sort) (offsetOf q') (limitOf q'.limit))
          (db.products.filter fun p =>
            decide (p.DeletedAt = none) && (whereClauses sql q).all (fun c => c p)).length
          totalPages (pageOf q'.page) (limitOf q'.limit)⟩ := by
  have hsel : selected sql db q' = db.products.filter fun p =>
      decide (p.DeletedAt = none) && (whereClauses sql q).all (fun c => c p) := by
    unfold selected
    rw [whereClauses_congr sql q q' h1 h2 h3 h4]
  refine ⟨totalPagesOf (selected sql db q').length (limitOf q'.limit), ?_⟩
  rw [← hsel]
  rfl

/-- C13 witness: the sample catalog has two products of category `Home`, counted
the same on page 7 with limit 1 and sort `name`. -/
theorem totalProducts_is_filtered_count_witness :
    ∃ totalPages,
      getProducts plainSQL sampleDB
          { noQuery with category := "Home", page := "7", limit := "1", sort := "name" } =
        ⟨200, Body.products [] 2 totalPages 7 1⟩ := by
  obtain ⟨tp, h⟩ := totalProducts_is_filtered_count plainSQL sampleDB
    { noQuery with category := "Home" }
    { noQuery with category := "Home", page := "7", limit := "1", sort := "name" }
    rfl rfl rfl rfl
  refine ⟨tp, h.trans ?_⟩
  congr 1

/-! ## Catalog query: page count -/

/-- The binary exponent of a positive rational between two powers of two. -/
theorem log_two_eq (x : ℚ) (e : ℤ) (h1 : (2 : ℚ) ^ e ≤ x) (h2 : x < 2 ^ (e + 1)) :
    Int.log 2 x = e := by
  have hx : 0 < x := lt_of_lt_of_le (by positivity) h1
  apply le_antisymm
  · have : Int.log 2 x < e + 1 := by
      rw [← Int.lt_zpow_iff_log_lt (b := 2) (by norm_num) hx]
      simpa using h2
    omega
  · rw [← Int.zpow_le_iff_le_log (b := 2) (by norm_num) hx]
    simpa using h1

/-- The number `2 ^ 53 + 1` is not a `float64`: it is converted to `2 ^ 53`. -/
theorem float64_two_pow_53_add_one : float64 9007199254740993 = 9007199254740992 := by
  have hlog : Int.log 2 (9007199254740993 : ℚ) = 53 :=
    log_two_eq _ 53 (by norm_num) (by norm_num)
  rw [float64_of_pos _ (by norm_num), hlog]
  have hy : (9007199254740993 : ℚ) * 2 ^ ((52 : ℤ) - 53) = 4503599627370496 + 1 / 2 := by
    norm_num
  have hfl : ⌊(4503599627370496 + 1 / 2 : ℚ)⌋ = 4503599627370496 := by
    rw [Int.floor_eq_iff]
    constructor <;> norm_num
  have hr : roundHalfEven (4503599627370496 + 1 / 2 : ℚ) = 4503599627370496 := by
    unfold roundHalfEven
    rw [hfl]
    norm_num
  rw [hy, hr]
  norm_num

/-- The expression on its own, beyond the size of any table: for the count
`2 ^ 53 + 1` and the limit 1 the page count computed through `float64` is `2 ^ 53`,
one less than the integer ceiling of the quotient. -/
theorem totalPagesOf_two_pow_53_add_one :
    totalPagesOf 9007199254740993 1 = 9007199254740992 ∧
    ⌈((9007199254740993 : ℕ) : ℚ) / ((1 : ℤ) : ℚ)⌉ = 9007199254740993 := by
  constructor
  · unfold totalPagesOf
    have h1 : float64 ((1 : ℤ) : ℚ) = 1 := by
      simpa using float64_natCast 1 (by norm_num)
    have h53 : float64 (9007199254740992 : ℚ) = 9007199254740992 := by
      have hlog : Int.log 2 (9007199254740992 : ℚ) = 53 :=
        log_two_eq _ 53 (by norm_num) (by norm_num)
      rw [float64_of_pos _ (by norm_num), hlog]
      have hy : (9007199254740992 : ℚ) * 2 ^ ((52 : ℤ) - 53) = ((4503599627370496 : ℤ) : ℚ) := by
        norm_num
      have hr : roundHalfEven (((4503599627370496 : ℤ) : ℚ)) = 4503599627370496 := by
        unfold roundHalfEven
        simp
      rw [hy, hr]
      norm_num
    have hc : float64 ((9007199254740993 : ℕ) : ℚ) = 9007199254740992 := by
      simpa using float64_two_pow_53_add_one
    rw [hc, h1, div_one, h53]
    norm_num
  · norm_num

/-- The converted limit is not zero. -/
theorem float64_limit_pos (limit : ℤ) (h1 : 1 ≤ limit) : 0 < float64 (limit : ℚ) := by
  have hl : (1 : ℚ) ≤ limit := by exact_mod_cast h1
  have hE := float64_error (limit : ℚ) (by linarith)
  have h3 := (abs_le.mp hE).1
  have : (limit : ℚ) * 2 ^ (-53 : ℤ) < limit := by
    have : (2 : ℚ) ^ (-53 : ℤ) < 1 := by norm_num
    nlinarith
  linarith

/-- The selected rows are rows of the products table. -/
theorem selected_length_le (sql : Engine) (db : DB) (q : ProductQuery) :
    (selected sql db q).length ≤ db.products.length := by
  unfold selected
  exact List.length_filter_le _ _

/-- C12: over a products table of fewer than `2 ^ 53` rows, for every query the
`totalPages` that `getProducts` reports is the integer ceiling of the reported
`totalProducts` divided by the effective limit, and it is 0 when the count is 0;
the effective limit is at least 1 and its conversion to `float64`, the divisor, is
not zero. -/
theorem totalPages_is_ceiling (sql : Engine) (db : DB) (q : ProductQuery)
    (hn : db.products.length < 2 ^ 53) :
    ∃ items count totalPages,
      getProducts sql db q =
        ⟨200, Body.products items count totalPages (pageOf q.page) (limitOf q.limit)⟩ ∧
      count = (selected sql db q).length ∧
      totalPages = ⌈(count : ℚ) / (limitOf q.limit : ℚ)⌉ ∧
      (count = 0 → totalPages = 0) ∧
      1 ≤ limitOf q.limit ∧ float64 (limitOf q.limit : ℚ) ≠ 0 := by
  have hr := limitOf_range q.limit
  have hc : (selected sql db q).length < 2 ^ 53 :=
    lt_of_le_of_lt (selected_length_le sql db q) hn
  refine ⟨_, _, _, rfl, rfl, totalPagesOf_eq_ceil _ _ hc hr.1 hr.2, ?_, hr.1,
    (float64_limit_pos _ hr.1).ne'⟩
  intro h0
  rw [h0, totalPagesOf_eq_ceil 0 _ (by norm_num) hr.1 hr.2]
  simp

/-- C12 witness: the three products of the sample store with the limit 2 make two
pages. -/
theorem totalPages_is_ceiling_witness :
    ∃ items count totalPages,
      getProducts plainSQL sampleDB { noQuery with limit := "2" } =
        ⟨200, Body.products items count totalPages (pageOf "") (limitOf "2")⟩ ∧
      count = (selected plainSQL sampleDB { noQuery with limit := "2" }).length ∧
      totalPages = ⌈(count : ℚ) / (limitOf "2" : ℚ)⌉ ∧
      (count = 0 → totalPages = 0) ∧
      1 ≤ limitOf "2" ∧ float64 (limitOf "2" : ℚ) ≠ 0 :=
  totalPages_is_ceiling plainSQL sampleDB { noQuery with limit := "2" } (by decide)

/-! ## Creating a shop -/

/-- What every successful `createShop` does: the shop carries the id of the user,
the stored role of the user is `seller`, and the shop id is stamped on the user
when the role was not `seller` before. -/
theorem createShop_success (db db1 : DB) (now : Nat) (userIDStr : String) (u : Int)
    (U : User) (input : ShopInput) (msg : String) (S : Shop)
    (hu : Atoi userIDStr = some u) (hU : firstUserInt db u = some U)
    (h : createShop db now (some userIDStr) (some input) = (⟨201, Body.shop msg S⟩, db1)) :
    S.UserID = U.ID ∧
    (U.Role = "seller" → db1.users = db.users) ∧
    (U.Role ≠ "seller" →
      db1.users = db.users.map fun r =>
        if r.ID = U.ID ∧ r.DeletedAt = none then
          { U with Role := "seller", ShopID := S.ID, UpdatedAt := now } else r) := by
  simp only [createShop, hu, hU] at h
  cases hs : firstShopOfUser db u with
  | some s => simp [hs] at h
  | none =>
    simp only [hs] at h
    by_cases hn : input.Name = ""
    · simp [hn] at h
    · simp only [hn, if_false] at h
      by_cases hr : U.Role = "seller"
      · simp only [hr, ne_eq, not_true_eq_false, if_false, Prod.mk.injEq, Response.mk.injEq,
          Body.shop.injEq, true_and] at h
        obtain ⟨⟨-, hS⟩, hdb⟩ := h
        subst hS hdb
        exact ⟨rfl, fun _ => rfl, fun hne => absurd hr hne⟩
      · simp only [hr, ne_eq, not_false_eq_true, if_true, Prod.mk.injEq, Response.mk.injEq,
          Body.shop.injEq, true_and] at h
        obtain ⟨⟨-, hS⟩, hdb⟩ := h
        subst hS hdb
        exact ⟨rfl, fun hs => absurd hs hr, fun _ => rfl⟩

/-- C15, the code at the failing input: `carol` registers with the role `seller`
and then creates a shop.  `createShop` answers 201 and the shop carries her id,
but her stored `ShopID` stays 0: the stamping sits under `user.Role != "seller"`. -/
theorem createShop_seller_shopId_not_stamped :
    ∀ sql : Engine,
    (serve sql emptyDB 1 (Request.registerUser (some carolInput))).1.status = 201 ∧
    (serve sql (run sql emptyDB [(1, Request.registerUser (some carolInput))]) 2
      (Request.createShop "Bearer 1_carol_5" (some shopBody))).1 =
      ⟨201, Body.shop "Shop created successfully"
        { ID := 1, CreatedAt := 2, UpdatedAt := 2, DeletedAt := none, Name := "Corner",
          Description := "", Logo := "", Address := "", UserID := 1 }⟩ ∧
    run sql emptyDB [(1, Request.registerUser (some carolInput)),
        (2, Request.createShop "Bearer 1_carol_5" (some shopBody))] =
      { users := [{ ID := 1, CreatedAt := 1, UpdatedAt := 1, DeletedAt := none,
                    Username := "carol", Email := "carol@example.com", Role := "seller",
                    ShopID := 0 }],
        shops := [{ ID := 1, CreatedAt := 2, UpdatedAt := 2, DeletedAt := none,
                    Name := "Corner", Description := "", Logo := "", Address := "",
                    UserID := 1 }],
        products := [] } :=
  fun _ => ⟨rfl, rfl, rfl⟩

/-- C16: for a context value that reads as the id of a stored user for whom a live
shop row exists, `createShop` answers 400 "User already has a shop" whatever the
body is, and returns the store as it was. -/
theorem createShop_already_owner (db : DB) (now : Nat) (userIDStr : String) (u : Int)
    (U : User) (S : Shop) (body : Option ShopInput)
    (hu : Atoi userIDStr = some u) (hU : firstUserInt db u = some U)
    (hS : S ∈ db.shops) (hlive : S.DeletedAt = none) (hown : (S.UserID : Int) = u) :
    createShop db now (some userIDStr) body =
      (⟨400, Body.error "User already has a shop"⟩, db) := by
  have hsome : (firstShopOfUser db u).isSome = true := by
    unfold firstShopOfUser
    rw [List.find?_isSome]
    exact ⟨S, hS, by simp [hlive, hown]⟩
  obtain ⟨s, hs⟩ := Option.isSome_iff_exists.mp hsome
  simp [createShop, hu, hU, hs]

/-- C16 witness: `alice` owns shop 3 of the sample store. -/
theorem createShop_already_owner_witness :
    createShop sampleDB 99 (some "7") (some shopBody) =
      (⟨400, Body.error "User already has a shop"⟩, sampleDB) :=
  createShop_already_owner sampleDB 99 "7" 7 alice shop3 (some shopBody)
    (by decide) (by decide) (by decide) (by decide) (by decide)

/-! ## Creating a product -/

/-- C20: for a user found from the context value whose role is not `seller`,
`createProduct` answers 403 whatever the body is, bound or not, and returns the
store as it was. -/
theorem createProduct_requires_seller (sql : Engine) (db : DB) (now : Nat)
    (userID : String) (U : User) (body : Option ProductInput)
    (hU : firstUserBy sql db userID = some U)
    (hrole : U.Role ≠ "seller") :
    createProduct sql db now (some userID) body =
      (⟨403, Body.error "Only sellers can create products"⟩, db) := by
  simp [createProduct, hU, hrole]

/-- C20 witness: `bob` is a buyer. -/
theorem createProduct_requires_seller_witness :
    createProduct plainSQL sampleDB 99 (some "8") none =
      (⟨403, Body.error "Only sellers can create products"⟩, sampleDB) :=
  createProduct_requires_seller plainSQL sampleDB 99 "8" bob none (by decide) (by decide)

/-- What `createProduct` does for a seller whose body gives no shop id: with a
zero stored `ShopID` it answers 400 and returns the store as it was; otherwise it
goes on to the insert with the stored `ShopID`. -/
theorem createProduct_default_shop (sql : Engine) (db : DB) (now : Nat)
    (userID : String) (U : User) (product : ProductInput)
    (hU : firstUserBy sql db userID = some U) (hrole : U.Role = "seller")
    (h0 : product.ShopID = 0) :
    (U.ShopID = 0 →
      createProduct sql db now (some userID) (some product) =
        (⟨400, Body.error "You need to create a shop first"⟩, db)) ∧
    (U.ShopID ≠ 0 →
      createProduct sql db now (some userID) (some product) =
        createProductRow db now { product with ShopID := U.ShopID }) := by
  constructor
  · intro hz
    simp [createProduct, hU, hrole, h0, hz]
  · intro hz
    simp [createProduct, hU, hrole, h0, hz]

/-- C19, the code at the failing input: `carol`, registered with the role `seller`,
owns shop 1, yet her request without a shop id is answered 400 "You need to create
a shop first" and nothing is created; `dave`, registered without a role, gets his
product in his shop by the same three requests. -/
theorem createProduct_no_default_for_seller_owner :
    ∀ sql : Engine,
    (∃ s ∈ (run sql emptyDB [(1, Request.registerUser (some carolInput)),
        (2, Request.createShop "Bearer 1_carol_5" (some shopBody))]).shops, s.UserID = 1) ∧
    serve sql (run sql emptyDB [(1, Request.registerUser (some carolInput)),
        (2, Request.createShop "Bearer 1_carol_5" (some shopBody))]) 3
        (Request.createProduct "Bearer 1_carol_5" (some newBody)) =
      (⟨400, Body.error "You need to create a shop first"⟩,
        run sql emptyDB [(1, Request.registerUser (some carolInput)),
          (2, Request.createShop "Bearer 1_carol_5" (some shopBody))]) ∧
    (serve sql (run sql emptyDB [(1, Request.registerUser (some daveInput)),
        (2, Request.createShop "Bearer 1_dave_5" (some shopBody))]) 3
        (Request.createProduct "Bearer 1_dave_5" (some newBody))).1 =
      ⟨201, Body.product { newProduct with ID := 1, CreatedAt := 3, UpdatedAt := 3,
                                           Status := "available", ShopID := 1 }⟩ :=
  fun _ => ⟨⟨_, List.mem_singleton.mpr rfl, rfl⟩, rfl, rfl⟩

/-! ## Catalog query: pages -/

/-- The effective page of a text that `Atoi` reads as a positive number. -/
theorem pageOf_of_Atoi (s : String) (k : Int) (hk : Atoi s = some k) (hpos : 0 < k) :
    pageOf s = k := by
  unfold pageOf
  split_ifs with hne
  · simp [hk, hpos]
  · have hnone : Atoi "" = none := by decide
    rw [not_not.mp hne, hnone] at hk
    cases hk

/-- The query for page `p` asks for page `p`. -/
theorem pageOf_withPage (q : ProductQuery) (p : Nat) (h1 : 1 ≤ p) (h2 : p < 2 ^ 63) :
    pageOf (withPage q p).page = p :=
  pageOf_of_Atoi _ _ (keyOf_fmtUint p h2).1 (by exact_mod_cast h1)

/-- The first `k` chunks of `L` elements make up the first `k * L` elements. -/
theorem join_chunks {α : Type} (S : List α) (L : Nat) :
    ∀ k, ((List.range k).map fun i => (S.drop (i * L)).take L).flatten = S.take (k * L) := by
  intro k
  induction k with
  | zero => simp
  | succ k ih =>
    rw [List.range_succ, List.map_append, List.flatten_append, ih, Nat.succ_mul, List.take_add]
    simp

/-- The page count covers the rows: `(T - 1) * limit < count ≤ T * limit` for
`T` the integer ceiling. -/
theorem ceil_bounds (count : ℕ) (limit : ℤ) (h1 : 1 ≤ limit) :
    (count : ℤ) ≤ (((count : ℤ) + limit - 1) / limit) * limit ∧
    ((((count : ℤ) + limit - 1) / limit) - 1) * limit < count ∧
    0 ≤ ((count : ℤ) + limit - 1) / limit := by
  have hpos : (0 : ℤ) < limit := by omega
  have hle := Int.ediv_mul_le ((count : ℤ) + limit - 1) (by omega : limit ≠ 0)
  have hlt := Int.lt_ediv_add_one_mul_self ((count : ℤ) + limit - 1) hpos
  have h0 : 0 ≤ ((count : ℤ) + limit - 1) / limit := Int.ediv_nonneg (by omega) (by omega)
  refine ⟨by nlinarith, by nlinarith, h0⟩

/-- The items of the response are the fetched page. -/
theorem itemsOf_getProducts (sql : Engine) (db : DB) (q : ProductQuery) :
    itemsOf (getProducts sql db q) =
      fetchPage (selected sql db q) (orderOf q.sort) (offsetOf q) (limitOf q.limit) := rfl

/-- The offset when the product does not overflow. -/
theorem offsetOf_eq (q : ProductQuery) (h : (pageOf q.page - 1) * limitOf q.limit < 2 ^ 63) :
    offsetOf q = (pageOf q.page - 1) * limitOf q.limit := by
  have hp := (pageOf_range q.page).1
  have hl := (limitOf_range q.limit).1
  have h0 : 0 ≤ (pageOf q.page - 1) * limitOf q.limit := mul_nonneg (by omega) (by omega)
  unfold offsetOf wrapInt64
  generalize (pageOf q.page - 1) * limitOf q.limit = x at h h0
  omega

/-- C14, the claim at a failing input: over the five Electronics products with
`sort=priceLow` and `limit=2` there are three pages; the page 4611686018427387905
lies beyond them, yet the offset wraps to `-2 ^ 63`, no `OFFSET` is written and the
items priced 10 and 20 of the first page are returned. -/
theorem page_beyond_range_counterexample :
    (∀ sql : Engine,
      getProducts sql electronicsDB
          { noQuery with category := "Electronics", sort := "priceLow",
                         page := "4611686018427387905", limit := "2" } =
        ⟨200, Body.products [e10, e20] 5 3 4611686018427387905 2⟩) ∧
    (3 : Int) < 4611686018427387905 := by
  refine ⟨fun sql => ?_, by decide⟩
  rw [getProducts_engine sql plainSQL _ _ (Or.inl rfl), getProducts_eval plainSQL _ _ (by decide)]
  decide

/-- C14 as amended: over fewer than `2 ^ 53` matching rows, a response has at most
`limit` items; when `(page - 1) * limit` is below `2 ^ 63`, the items are the
elements at the positions `offset` to `offset + limit - 1` of the matching live
rows sorted by the chosen order, and there is none when the page lies beyond
`totalPages`; the pages 1 to `totalPages`, one after the other, are that sorted
list, a rearrangement of the matching rows; and scenario C returns the items
priced 30 and 40 with `totalProducts` 5, `totalPages` 3, `currentPage` 2. -/
theorem catalog_pages (sql : Engine) (db : DB) (q : ProductQuery)
    (hn : (selected sql db q).length < 2 ^ 53) :
    (itemsOf (getProducts sql db q)).length ≤ (limitOf q.limit).toNat ∧
    ((pageOf q.page - 1) * limitOf q.limit < 2 ^ 63 →
      itemsOf (getProducts sql db q) =
        (((selected sql db q).insertionSort (orderOf q.sort).before).drop
          ((pageOf q.page - 1) * limitOf q.limit).toNat).take (limitOf q.limit).toNat ∧
      (totalPagesOf (selected sql db q).length (limitOf q.limit) < pageOf q.page →
        itemsOf (getProducts sql db q) = [])) ∧
    ((List.range (totalPagesOf (selected sql db q).length (limitOf q.limit)).toNat).map
        fun i => itemsOf (getProducts sql db (withPage q (i + 1)))).flatten =
      (selected sql db q).insertionSort (orderOf q.sort).before ∧
    ((selected sql db q).insertionSort (orderOf q.sort).before).Perm (selected sql db q) ∧
    (getProducts sql electronicsDB
          { noQuery with category := "Electronics", sort := "priceLow", page := "2",
                         limit := "2" } =
        ⟨200, Body.products [e30, e40] 5 3 2 2⟩ ∧
      [e30, e40].map (fun p => p.Price) = [30, 40]) := by
  have hr := limitOf_range q.limit
  have hT : totalPagesOf (selected sql db q).length (limitOf q.limit) =
      (((selected sql db q).length : ℤ) + limitOf q.limit - 1) / limitOf q.limit := by
    rw [totalPagesOf_eq_ceil _ _ hn hr.1 hr.2, ceil_div_eq _ _ hr.1]
  obtain ⟨hb1, hb2, hb3⟩ := ceil_bounds (selected sql db q).length (limitOf q.limit) hr.1
  rw [← hT] at hb1 hb2 hb3
  set T := totalPagesOf (selected sql db q).length (limitOf q.limit) with hTdef
  set L := limitOf q.limit with hL
  set S := (selected sql db q).insertionSort (orderOf q.sort).before with hS
  have hlen : S.length = (selected sql db q).length := List.length_insertionSort _ _
  refine ⟨?_, ?_, ?_, List.perm_insertionSort _ _, ?_⟩
  · rw [itemsOf_getProducts]
    unfold fetchPage
    exact List.length_take_le _ _
  · intro hov
    have hoff := offsetOf_eq q hov
    have hitems : itemsOf (getProducts sql db q) =
        (S.drop ((pageOf q.page - 1) * L).toNat).take L.toNat := by
      rw [itemsOf_getProducts, hoff]
      rfl
    refine ⟨hitems, fun hbeyond => ?_⟩
    rw [hitems]
    have hge : (S.length : ℤ) ≤ (pageOf q.page - 1) * L := by
      rw [hlen]
      have : T * L ≤ (pageOf q.page - 1) * L :=
        mul_le_mul_of_nonneg_right (by omega) (by omega)
      omega
    have : S.length ≤ ((pageOf q.page - 1) * L).toNat := by omega
    rw [List.drop_eq_nil_of_le this, List.take_nil]
  · have hchunk : ∀ i ∈ List.range T.toNat,
        itemsOf (getProducts sql db (withPage q (i + 1))) =
          (S.drop (i * L.toNat)).take L.toNat := by
      intro i hi
      have hiT : i < T.toNat := List.mem_range.mp hi
      have hiT' : (i : ℤ) + 1 ≤ T := by omega
      have hbound : (i : ℤ) * L < (selected sql db q).length := by
        have : (i : ℤ) * L ≤ (T - 1) * L :=
          mul_le_mul_of_nonneg_right (by omega) (by omega)
        omega
      have hi63 : i + 1 < 2 ^ 63 := by
        have h1 : (i : ℤ) ≤ (i : ℤ) * L := by nlinarith
        have h2 : ((selected sql db q).length : ℤ) < 2 ^ 53 := by exact_mod_cast hn
        have : (i : ℤ) + 1 < 2 ^ 63 := by omega
        exact_mod_cast this
      have hpage : pageOf (withPage q (i + 1)).page = ((i + 1 : ℕ) : ℤ) :=
        pageOf_withPage q (i + 1) (by omega) hi63
      have hprod : (pageOf (withPage q (i + 1)).page - 1) * limitOf (withPage q (i + 1)).limit
          = (i : ℤ) * L := by
        rw [hpage]
        push_cast
        simp [withPage, hL]
      have hoff := offsetOf_eq (withPage q (i + 1)) (by
        rw [hprod]
        have h2 : ((selected sql db q).length : ℤ) < 2 ^ 53 := by exact_mod_cast hn
        omega)
      rw [itemsOf_getProducts, hoff, hprod]
      have hnat : ((i : ℤ) * L).toNat = i * L.toNat := by
        have : ((i * L.toNat : ℕ) : ℤ) = (i : ℤ) * L := by
          push_cast
          rw [Int.toNat_of_nonneg (by omega)]
        omega
      unfold fetchPage
      rw [hnat]
      rfl
    rw [List.map_congr_left hchunk, join_chunks S L.toNat T.toNat]
    apply List.take_of_length_le
    rw [hlen]
    have : ((T.toNat * L.toNat : ℕ) : ℤ) = T * L := by
      push_cast
      rw [Int.toNat_of_nonneg hb3, Int.toNat_of_nonneg (by omega)]
    omega
  · exact ⟨by rw [getProducts_engine sql plainSQL _ _ (Or.inl rfl),
      getProducts_eval plainSQL _ _ (by decide)]; decide, by decide⟩

/-- C14 witness: page 2 of the sample catalog under `limit=2` is its third product,
and the two pages together are the catalog in id order. -/
theorem catalog_pages_witness :
    itemsOf (getProducts plainSQL sampleDB { noQuery with page := "2", limit := "2" }) = [orphan] ∧
    ((List.range (totalPagesOf (selected plainSQL sampleDB
          { noQuery with page := "2", limit := "2" }).length
        (limitOf "2")).toNat).map
      fun i => itemsOf (getProducts plainSQL sampleDB
        (withPage { noQuery with page := "2", limit := "2" } (i + 1)))).flatten =
      [lamp, radio, orphan] :=
  ⟨((catalog_pages plainSQL sampleDB { noQuery with page := "2", limit := "2" } (by decide)).2.1
      (by decide)).1.trans (by decide),
   (catalog_pages plainSQL sampleDB { noQuery with page := "2", limit := "2" } (by decide)).2.2.1.trans
      (by decide)⟩

/-! ## Lookups by id, reachable stores -/

/-- A shop found by its id is a live row of the table with that id. -/
theorem firstShop_some (db : DB) (id : Nat) (s : Shop) (h : firstShop db id = some s) :
    s ∈ db.shops ∧ s.ID = id ∧ s.DeletedAt = none := by
  unfold firstShop at h
  have h1 := List.mem_of_find?_eq_some h
  have h2 := List.find?_some h
  simp only [decide_eq_true_eq] at h2
  exact ⟨h1, h2.1, h2.2⟩

/-- A series of requests leads from a reachable store to a reachable store. -/
theorem Reachable.run (sql : Engine) (reqs : List (Nat × Request)) :
    ∀ db : DB, Reachable sql db → Reachable sql (run sql db reqs) := by
  induction reqs with
  | nil => intro db h; exact h
  | cons r rest ih =>
    intro db h
    exact ih _ (Reachable.step db r.1 r.2 h)

/-! ## A product body with a nested shop -/

/-- C17, the code at the failing input: `dave` registers and creates his shop,
shop 1, then posts a product whose body carries `shopId` 1 and the nested shop
`{"name":"Annex","userId":1}`.  `createProduct` checks shop 1 and answers 201, and
`Create` has saved the nested shop first: the store, reachable from the empty one,
holds the shops 1 and 2, both with `userId` 1, and the product is in shop 2. -/
theorem nested_shop_second_shop_of_user :
    ∀ sql : Engine,
    Reachable sql (run sql emptyDB [(1, Request.registerUser (some daveInput)),
        (2, Request.createShop "Bearer 1_dave_5" (some shopBody)),
        (3, Request.createProduct "Bearer 1_dave_5"
          (some { newBody with ShopID := 1, Shop := some annexOfUser1 }))]) ∧
    (serve sql (run sql emptyDB [(1, Request.registerUser (some daveInput)),
        (2, Request.createShop "Bearer 1_dave_5" (some shopBody))]) 3
      (Request.createProduct "Bearer 1_dave_5"
        (some { newBody with ShopID := 1, Shop := some annexOfUser1 }))).1 =
      ⟨201, Body.product { newProduct with ID := 1, CreatedAt := 3, UpdatedAt := 3,
                                           Status := "available", ShopID := 2 }⟩ ∧
    (run sql emptyDB [(1, Request.registerUser (some daveInput)),
        (2, Request.createShop "Bearer 1_dave_5" (some shopBody)),
        (3, Request.createProduct "Bearer 1_dave_5"
          (some { newBody with ShopID := 1, Shop := some annexOfUser1 }))]).shops =
      [{ ID := 1, CreatedAt := 2, UpdatedAt := 2, DeletedAt := none, Name := "Corner",
         Description := "", Logo := "", Address := "", UserID := 1 },
       { ID := 2, CreatedAt := 3, UpdatedAt := 3, DeletedAt := none, Name := "Annex",
         Description := "", Logo := "", Address := "", UserID := 1 }] :=
  fun sql => ⟨Reachable.run sql _ emptyDB Reachable.empty, rfl, rfl⟩

/-- C18, the code at the failing input: `dave` (user 1) owns shop 1 and `carol`
is user 2; `dave` posts a product whose body carries `shopId` 1 and the nested
shop `{"name":"Annex","userId":2}`.  The ownership check is made on shop 1 and
passes; `Create` saves the nested shop as shop 2 and writes its id into the
product: the product that `createProduct` persists is in a shop whose `userId` is
2, not the id of the acting user. -/
theorem nested_shop_product_of_foreign_shop :
    ∀ sql : Engine,
    Reachable sql (run sql emptyDB [(1, Request.registerUser (some daveInput)),
        (2, Request.createShop "Bearer 1_dave_5" (some shopBody)),
        (3, Request.registerUser (some carolInput)),
        (4, Request.createProduct "Bearer 1_dave_5"
          (some { newBody with ShopID := 1, Shop := some annexOfUser2 }))]) ∧
    (serve sql (run sql emptyDB [(1, Request.registerUser (some daveInput)),
        (2, Request.createShop "Bearer 1_dave_5" (some shopBody)),
        (3, Request.registerUser (some carolInput))]) 4
      (Request.createProduct "Bearer 1_dave_5"
        (some { newBody with ShopID := 1, Shop := some annexOfUser2 }))).1 =
      ⟨201, Body.product { newProduct with ID := 1, CreatedAt := 4, UpdatedAt := 4,
                                           Status := "available", ShopID := 2 }⟩ ∧
    (run sql emptyDB [(1, Request.registerUser (some daveInput)),
        (2, Request.createShop "Bearer 1_dave_5" (some shopBody)),
        (3, Request.registerUser (some carolInput)),
        (4, Request.createProduct "Bearer 1_dave_5"
          (some { newBody with ShopID := 1, Shop := some annexOfUser2 }))]).products =
      [{ newProduct with ID := 1, CreatedAt := 4, UpdatedAt := 4, Status := "available",
                         ShopID := 2 }] ∧
    firstShop (run sql emptyDB [(1, Request.registerUser (some daveInput)),
        (2, Request.createShop "Bearer 1_dave_5" (some shopBody)),
        (3, Request.registerUser (some carolInput)),
        (4, Request.createProduct "Bearer 1_dave_5"
          (some { newBody with ShopID := 1, Shop := some annexOfUser2 }))]) 2 =
      some { ID := 2, CreatedAt := 4, UpdatedAt := 4, DeletedAt := none, Name := "Annex",
             Description := "", Logo := "", Address := "", UserID := 2 } :=
  fun sql => ⟨Reachable.run sql _ emptyDB Reachable.empty, rfl, rfl, rfl⟩

/-- A request that names the shop of another user in `shopId` is refused with 403
before anything is written, whatever else the body carries. -/
theorem createProduct_foreign_shop_forbidden (sql : Engine) (db : DB) (now : Nat)
    (userID : String) (U : User) (S : Shop) (product : ProductInput)
    (hU : firstUserBy sql db userID = some U) (hrole : U.Role = "seller")
    (h0 : product.ShopID ≠ 0) (hS : firstShop db product.ShopID = some S)
    (hne : S.UserID ≠ U.ID) :
    createProduct sql db now (some userID) (some product) =
      (⟨403, Body.error "You can only create products for your own shop"⟩, db) := by
  simp [createProduct, hU, hrole, h0, hS, hne]

/-! ## Creating a product in a named shop -/

/-- C21, the claim at a failing input: `alice` (user 7) owns shop 3 and posts a
product with `shopId` 3 whose body also carries the id 1, the id of a stored
product; the insert fails and the answer is 500, with nothing created, whatever
the engine. -/
theorem createProduct_taken_id_counterexample :
    firstUser sampleDB 7 = some alice ∧ alice.Role = "seller" ∧
    firstShop sampleDB 3 = some shop3 ∧ shop3.UserID = alice.ID ∧
    ∀ sql : Engine,
      createProduct sql sampleDB 99 (some "7") (some { newBody with ID := 1, ShopID := 3 }) =
        (⟨500, Body.error "Failed to create product"⟩, sampleDB) := by
  refine ⟨by decide, by decide, by decide, by decide, ?_⟩
  intro sql
  rfl

/-- C21 as amended: for a seller `U` who owns the live shop `S` and a body with
`shopId` equal to the id of `S` that carries no nested shop and no id, or an id
that no stored product has, `createProduct` answers 201 with a product whose
`shopId` is the id of `S` and whose status is `available` when the body gives none
and the given one otherwise; the product is added to the store. -/
theorem createProduct_named_shop (sql : Engine) (db : DB) (now : Nat) (userID : String)
    (U : User) (S : Shop) (product : ProductInput)
    (hU : firstUserBy sql db userID = some U)
    (hrole : U.Role = "seller") (hS : firstShop db product.ShopID = some S)
    (h0 : product.ShopID ≠ 0) (hown : S.UserID = U.ID) (hplain : product.Shop = none)
    (hid : product.ID = 0 ∨ ∀ r ∈ db.products, r.ID ≠ product.ID) :
    ∃ row,
      createProduct sql db now (some userID) (some product) =
        (⟨201, Body.product row⟩, { db with products := db.products ++ [row] }) ∧
      row.ShopID = S.ID ∧
      (product.Status = "" → row.Status = "available") ∧
      (product.Status ≠ "" → row.Status = product.Status) := by
  have hSid := (firstShop_some db _ S hS).2.1
  have hfree :
      ¬(product.ID ≠ 0 ∧ (db.products.any fun r => decide (r.ID = product.ID)) = true) := by
    intro hc
    rcases hid with hid | hid
    · exact hc.1 hid
    · obtain ⟨r, hr, hrid⟩ := List.any_eq_true.mp hc.2
      exact hid r hr (by simpa using hrid)
  simp only [createProduct, hU, hrole, ne_eq, not_true_eq_false, if_false, h0, hS, hown]
  unfold createProductRow insertProduct saveBeforeAssociations
  by_cases hst : product.Status = ""
  · simp only [hst, if_true, hplain]
    rw [if_neg hfree]
    refine ⟨_, rfl, hSid.symm, ?_, ?_⟩ <;> simp
  · simp only [hst, if_false, hplain]
    rw [if_neg hfree]
    refine ⟨_, rfl, hSid.symm, ?_, ?_⟩ <;> simp

/-- C21 witness: user 7 owns shop 3; a body with `shopId` 3 and no status is
created with status `available`. -/
theorem createProduct_named_shop_witness :
    ∃ row,
      createProduct plainSQL sampleDB 99 (some "7") (some { newBody with ShopID := 3 }) =
        (⟨201, Body.product row⟩, { sampleDB with products := sampleDB.products ++ [row] }) ∧
      row.ShopID = shop3.ID ∧
      (({ newBody with ShopID := 3 } : ProductInput).Status = "" → row.Status = "available") ∧
      (({ newBody with ShopID := 3 } : ProductInput).Status ≠ "" →
        row.Status = ({ newBody with ShopID := 3 } : ProductInput).Status) :=
  createProduct_named_shop plainSQL sampleDB 99 "7" alice shop3 { newBody with ShopID := 3 }
    (by decide) (by decide) (by decide) (by decide) (by decide) rfl (Or.inl (by decide))

/-! ## Updating a shop: fields -/

/-- The shop read back after the update is the updated shop. -/
theorem firstShop_updatesShop (db : DB) (shop : Shop) (input : ShopInput) (now id : Nat)
    (h : firstShop db id = some shop) :
    firstShop (updatesShop db shop input now) id = some (shop.updates input now) := by
  obtain ⟨-, hid, hlive⟩ := firstShop_some db id shop h
  unfold firstShop at h ⊢
  unfold updatesShop
  simp only [List.find?_map]
  have hfun : ((fun s : Shop => decide (s.ID = id ∧ s.DeletedAt = none)) ∘ fun r : Shop =>
      if r.ID = shop.ID ∧ r.DeletedAt = none then shop.updates input now else r) =
      fun s : Shop => decide (s.ID = id ∧ s.DeletedAt = none) := by
    funext r
    simp only [Function.comp]
    split_ifs with hc
    · simp [Shop.updates, hid, hlive, hc.1, hc.2]
    · rfl
  rw [hfun, h]
  simp [hlive]

/-- C22: after a successful `updateShop` (200) on a decimal shop id, the body was
bound, the shop read back by the path parameter is the shop of the response, each
of its name, description, logo and address is the input value when that is not
empty and the stored value otherwise, and its id and `UserID` are those of the
stored shop. -/
theorem updateShop_fields (sql : Engine) (db db1 : DB) (now : Nat)
    (userIDValue : Option String) (shopID : String) (body : Option ShopInput) (out : Body)
    (k : Int) (hnum : Atoi shopID = some k)
    (h : updateShop sql db now userIDValue shopID body = (⟨200, out⟩, db1)) :
    ∃ shop input s1,
      firstShopBy sql db shopID = some shop ∧ body = some input ∧
      out = Body.shop "Shop updated successfully" s1 ∧
      firstShopBy sql db1 shopID = some s1 ∧
      s1.Name = (if input.Name ≠ "" then input.Name else shop.Name) ∧
      s1.Description =
        (if input.Description ≠ "" then input.Description else shop.Description) ∧
      s1.Logo = (if input.Logo ≠ "" then input.Logo else shop.Logo) ∧
      s1.Address = (if input.Address ≠ "" then input.Address else shop.Address) ∧
      s1.ID = shop.ID ∧ s1.UserID = shop.UserID := by
  unfold updateShop at h
  split at h
  · simp at h
  · split at h
    · simp at h
    · split at h
      · simp at h
      · next shop hshop =>
        split at h
        · simp at h
        · split at h
          · simp at h
          · next input =>
            simp only [Prod.mk.injEq, Response.mk.injEq, true_and] at h
            obtain ⟨hout, hdb⟩ := h
            subst hout hdb
            refine ⟨shop, input, shop.updates input now, hshop, rfl, rfl, ?_,
              rfl, rfl, rfl, rfl, rfl, rfl⟩
            rw [firstShopBy_of_Atoi sql _ _ k hnum] at hshop ⊢
            cases hk : keyOf shopID with
            | none => simp [hk] at hshop
            | some n =>
              simp only [hk, Option.some_bind] at hshop ⊢
              exact firstShop_updatesShop db shop input now n hshop

/-- C22 witness: `alice` renames shop 3 and leaves the other fields empty. -/
theorem updateShop_fields_witness :
    ∃ shop input s1,
      firstShopBy plainSQL sampleDB "3" = some shop ∧
      some (⟨"New", "", "", ""⟩ : ShopInput) = some input ∧
      Body.shop "Shop updated successfully" (shop3.updates ⟨"New", "", "", ""⟩ 99) =
        Body.shop "Shop updated successfully" s1 ∧
      firstShopBy plainSQL (updatesShop sampleDB shop3 ⟨"New", "", "", ""⟩ 99) "3" = some s1 ∧
      s1.Name = (if input.Name ≠ "" then input.Name else shop.Name) ∧
      s1.Description =
        (if input.Description ≠ "" then input.Description else shop.Description) ∧
      s1.Logo = (if input.Logo ≠ "" then input.Logo else shop.Logo) ∧
      s1.Address = (if input.Address ≠ "" then input.Address else shop.Address) ∧
      s1.ID = shop.ID ∧ s1.UserID = shop.UserID :=
  updateShop_fields plainSQL sampleDB (updatesShop sampleDB shop3 ⟨"New", "", "", ""⟩ 99) 99
    (some "7") "3" (some ⟨"New", "", "", ""⟩)
    (Body.shop "Shop updated successfully" (shop3.updates ⟨"New", "", "", ""⟩ 99)) 3
    (by decide) (by decide)

/-! ## Deleting a product -/

/-- After the soft delete no live row has the id of the deleted product. -/
theorem firstProduct_softDeleteProduct (db : DB) (P : Product) (now : Nat) :
    firstProduct (softDeleteProduct db P now) P.ID = none := by
  unfold firstProduct softDeleteProduct
  rw [List.find?_eq_none]
  intro x hx
  obtain ⟨r, -, hr⟩ := List.mem_map.mp hx
  simp only [decide_eq_true_eq, not_and]
  intro hid
  split_ifs at hr with hc
  · rw [← hr]
    simp
  · rw [← hr] at hid ⊢
    intro hlive
    exact hc ⟨hid, hlive⟩

/-- The rows selected after the soft delete are the rows selected before, without
the id of the deleted product. -/
theorem selected_softDeleteProduct (sql : Engine) (db : DB) (P : Product) (now : Nat)
    (q : ProductQuery) :
    selected sql (softDeleteProduct db P now) q =
      (selected sql db q).filter fun r => decide (r.ID ≠ P.ID) := by
  unfold selected softDeleteProduct
  simp only []
  induction db.products with
  | nil => rfl
  | cons r l ih =>
    simp only [List.map_cons, List.filter_cons]
    by_cases hc : r.ID = P.ID ∧ r.DeletedAt = none
    · simp only [hc, and_self, if_true, ih]
      by_cases hw : (whereClauses sql q).all (fun c => c r) = true
      · simp [hw, hc.1]
      · simp [hw]
    · simp only [hc, if_false, ih]
      by_cases hp : (decide (r.DeletedAt = none) && (whereClauses sql q).all fun c => c r) = true
      · have hne : r.ID ≠ P.ID := by
          intro he
          simp only [Bool.and_eq_true, decide_eq_true_eq] at hp
          exact hc ⟨he, hp.1⟩
        simp [hp, hne]
      · simp [hp]

/-- C23: after `deleteProduct` of the decimal id of `P` by the owner of the shop of
`P` (200), the row of `P` is still in the products table, now with a deletion mark,
and the table has as
many rows as before; for every query, no item of `getProducts` has the id of `P`
and `totalProducts` counts the rows selected before without those of that id. -/
theorem deleted_product_leaves_catalog (sql : Engine) (db : DB) (now : Nat)
    (userID id : String) (U : User) (P : Product) (S : Shop) (k : Int)
    (hnum : Atoi id = some k) (hP : firstProductBy sql db id = some P)
    (hU : firstUserBy sql db userID = some U)
    (hS : firstShop db P.ShopID = some S) (hown : S.UserID = U.ID) :
    (deleteProduct sql db now (some userID) id).1.status = 200 ∧
    { P with DeletedAt := some now } ∈ (deleteProduct sql db now (some userID) id).2.products ∧
    (deleteProduct sql db now (some userID) id).2.products.length = db.products.length ∧
    ∀ q : ProductQuery,
      (∀ p ∈ itemsOf (getProducts sql (deleteProduct sql db now (some userID) id).2 q),
        p.ID ≠ P.ID) ∧
      ∃ items totalPages,
        getProducts sql (deleteProduct sql db now (some userID) id).2 q =
          ⟨200, Body.products items
            ((selected sql db q).filter fun r => decide (r.ID ≠ P.ID)).length
            totalPages (pageOf q.page) (limitOf q.limit)⟩ := by
  have hdel : deleteProduct sql db now (some userID) id =
      (⟨200, Body.message "Product deleted successfully"⟩, softDeleteProduct db P now) := by
    simp [deleteProduct, hP, hU, hS, hown]
  have hPmem : P ∈ db.products ∧ P.DeletedAt = none := by
    rw [firstProductBy_of_Atoi sql _ _ k hnum] at hP
    cases hk : keyOf id with
    | none => simp [hk] at hP
    | some n =>
      simp only [hk, Option.some_bind] at hP
      unfold firstProduct at hP
      have h2 := List.find?_some hP
      simp only [decide_eq_true_eq] at h2
      exact ⟨List.mem_of_find?_eq_some hP, h2.2⟩
  rw [hdel]
  refine ⟨rfl, ?_, ?_, ?_⟩
  · simp only [softDeleteProduct, List.mem_map]
    exact ⟨P, hPmem.1, by simp [hPmem.2]⟩
  · simp [softDeleteProduct]
  · intro q
    constructor
    · intro p hp
      rw [itemsOf_getProducts] at hp
      have hsel := mem_of_mem_fetchPage _ _ _ _ p hp
      rw [selected_softDeleteProduct, List.mem_filter] at hsel
      simpa using hsel.2
    · refine ⟨fetchPage (selected sql (softDeleteProduct db P now) q) (orderOf q.sort)
          (offsetOf q) (limitOf q.limit),
        totalPagesOf (selected sql (softDeleteProduct db P now) q).length (limitOf q.limit), ?_⟩
      rw [← selected_softDeleteProduct]
      rfl

/-- C23 witness: `alice` deletes product 1 of the sample store; the catalog then
lists the two other products. -/
theorem deleted_product_leaves_catalog_witness :
    (deleteProduct plainSQL sampleDB 99 (some "7") "1").1.status = 200 ∧
    { lamp with DeletedAt := some 99 } ∈
      (deleteProduct plainSQL sampleDB 99 (some "7") "1").2.products ∧
    itemsOf (getProducts plainSQL (deleteProduct plainSQL sampleDB 99 (some "7") "1").2 noQuery) =
      [radio, orphan] :=
  ⟨(deleted_product_leaves_catalog plainSQL sampleDB 99 "7" "1" alice lamp shop3 1
      (by decide) (by decide) (by decide) (by decide) (by decide)).1,
   (deleted_product_leaves_catalog plainSQL sampleDB 99 "7" "1" alice lamp shop3 1
      (by decide) (by decide) (by decide) (by decide) (by decide)).2.1,
   by decide⟩

/-- C24, the claim at a failing input: `alice` deletes product 1 of the sample
store (200); `getProduct` with the id 1 then answers 404, where it answered 200
before. -/
theorem getProduct_after_delete_counterexample :
    (∀ sql : Engine, getProduct sql sampleDB "1" = ⟨200, Body.product lamp⟩) ∧
    (∀ sql : Engine, (deleteProduct sql sampleDB 99 (some "7") "1").1.status = 200) ∧
    (∀ sql : Engine,
      getProduct sql (deleteProduct sql sampleDB 99 (some "7") "1").2 "1" =
        ⟨404, Body.error "Product not found"⟩) :=
  ⟨fun _ => rfl, fun _ => rfl, fun _ => rfl⟩

/-- C24 as amended: after a successful `deleteProduct` (200) of the product of the
path parameter, a decimal id, `getProduct` with the same parameter answers 404:
its read is scoped to live rows. -/
theorem getProduct_after_delete (sql : Engine) (db db1 : DB) (now : Nat)
    (userID : Option String) (id : String) (out : Body) (k : Int) (hnum : Atoi id = some k)
    (h : deleteProduct sql db now userID id = (⟨200, out⟩, db1)) :
    getProduct sql db1 id = ⟨404, Body.error "Product not found"⟩ := by
  unfold deleteProduct at h
  split at h
  · simp at h
  · split at h
    · simp at h
    · next P hP =>
      split at h
      · simp at h
      · split at h
        · simp at h
        · split at h
          · simp at h
          · simp only [Prod.mk.injEq, Response.mk.injEq, true_and] at h
            obtain ⟨-, hdb⟩ := h
            subst hdb
            rw [firstProductBy_of_Atoi sql _ _ k hnum] at hP
            cases hk : keyOf id with
            | none => simp [hk] at hP
            | some n =>
              simp only [hk, Option.some_bind] at hP
              have hid : P.ID = n := by
                unfold firstProduct at hP
                have h2 := List.find?_some hP
                simp only [decide_eq_true_eq] at h2
                exact h2.1
              have := firstProduct_softDeleteProduct db P now
              rw [hid] at this
              rw [getProduct, firstProductBy_of_Atoi sql _ _ k hnum, hk]
              simp [this]

/-- C24 witness: product 2 of the sample store after its deletion by `alice`. -/
theorem getProduct_after_delete_witness :
    getProduct plainSQL (softDeleteProduct sampleDB radio 99) "2" =
      ⟨404, Body.error "Product not found"⟩ :=
  getProduct_after_delete plainSQL sampleDB (softDeleteProduct sampleDB radio 99) 99
    (some "7") "2" (Body.message "Product deleted successfully") 2 (by decide) (by decide)

/-! ## Status codes -/

/-- C25, the claim at a failing input: `alice` owns shop 3 and asks for a second
shop; the status of the answer is 400, not 409. -/
theorem createShop_conflict_status_counterexample :
    (createShop sampleDB 99 (some "7") (some shopBody)).1.status = 400 ∧
    (createShop sampleDB 99 (some "7") (some shopBody)).1.status ≠ 409 := by
  decide

/-- C25 as amended: when `createShop` is refused because a live shop row of the
user exists, the HTTP status of the response is 400. -/
theorem createShop_already_owner_status (db : DB) (now : Nat) (userIDStr : String)
    (u : Int) (U : User) (S : Shop) (body : Option ShopInput)
    (hu : Atoi userIDStr = some u) (hU : firstUserInt db u = some U)
    (hS : S ∈ db.shops) (hlive : S.DeletedAt = none) (hown : (S.UserID : Int) = u) :
    (createShop db now (some userIDStr) body).1.status = 400 := by
  have hsome : (firstShopOfUser db u).isSome = true := by
    unfold firstShopOfUser
    rw [List.find?_isSome]
    exact ⟨S, hS, by simp [hlive, hown]⟩
  obtain ⟨s, hs⟩ := Option.isSome_iff_exists.mp hsome
  simp [createShop, hu, hU, hs]

/-- C25 witness: `alice` and shop 3 of the sample store. -/
theorem createShop_already_owner_status_witness :
    (createShop sampleDB 99 (some "7") none).1.status = 400 :=
  createShop_already_owner_status sampleDB 99 "7" 7 alice shop3 none
    (by decide) (by decide) (by decide) (by decide) (by decide)

/-! ## Product status -/

/-- C26, the code at the failing inputs: `dave` registers, creates his shop and
posts a product with the status `bogus`, which is stored as given; he then updates
the status of a product created with the default to `gone`, which is stored too.
Neither is one of the three statuses of `models.ProductStatus`. -/
theorem product_status_unchecked :
    (∀ sql : Engine,
      (TobeShop.run sql emptyDB [(1, Request.registerUser (some daveInput)),
        (2, Request.createShop "Bearer 1_dave_5" (some shopBody)),
        (3, Request.createProduct "Bearer 1_dave_5"
          (some { newBody with Status := "bogus" }))]).products.map (fun p => p.Status) =
      ["bogus"]) ∧
    (∀ sql : Engine,
      (TobeShop.run sql emptyDB [(1, Request.registerUser (some daveInput)),
        (2, Request.createShop "Bearer 1_dave_5" (some shopBody)),
        (3, Request.createProduct "Bearer 1_dave_5" (some newBody)),
        (4, Request.updateProduct "Bearer 1_dave_5" "1"
          (some { newProduct with Status := "gone" }))]).products.map (fun p => p.Status) =
      ["gone"]) ∧
    "bogus" ∉ productStatuses ∧ "gone" ∉ productStatuses :=
  ⟨fun _ => rfl, fun _ => rfl, by decide, by decide⟩

/-! ## Updating a product: the shop -/

/-- The update of a product with the shop id forced to the stored one keeps the
shop id. -/
theorem Product.updates_ShopID (p u : Product) (now : Nat) :
    (p.updates { u with ShopID := p.ShopID } now).ShopID = p.ShopID := by
  unfold Product.updates
  simp only []
  split_ifs <;> rfl

/-- C27: after a successful `updateProduct` (200) on a decimal product id,
whatever the body carries, the product of the response has the `ShopID` that the
stored product had, it replaces
the live row of that product, every other row is as before, and, ids being unique
in the table, the table holds the same shop ids row by row. -/
theorem updateProduct_keeps_shop (sql : Engine) (db db1 : DB) (now : Nat)
    (userID : Option String) (id : String) (body : Option Product) (out : Body)
    (k : Int) (hnum : Atoi id = some k)
    (h : updateProduct sql db now userID id body = (⟨200, out⟩, db1)) :
    ∃ P q,
      firstProductBy sql db id = some P ∧ out = Body.product q ∧ q.ShopID = P.ShopID ∧
      db1.products =
        db.products.map (fun r => if r.ID = P.ID ∧ r.DeletedAt = none then q else r) ∧
      ((db.products.map fun r => r.ID).Nodup →
        db1.products.map (fun r => r.ShopID) = db.products.map (fun r => r.ShopID)) := by
  unfold updateProduct at h
  split at h
  · simp at h
  · split at h
    · simp at h
    · next P hP =>
      split at h
      · simp at h
      · split at h
        · simp at h
        · split at h
          · simp at h
          · split at h
            · simp at h
            · next u =>
              dsimp only at h
              split at h
              · simp at h
              · next d hd =>
                simp only [Prod.mk.injEq, Response.mk.injEq, true_and] at h
                obtain ⟨hout, hdb⟩ := h
                subst hout hdb
                have hq := Product.updates_ShopID P u now
                have hprods : d.products = db.products.map (fun r =>
                    if r.ID = P.ID ∧ r.DeletedAt = none then
                      P.updates { u with ShopID := P.ShopID } now else r) := by
                  unfold updatesProduct at hd
                  dsimp only at hd
                  split_ifs at hd
                  simp only [Option.some.injEq] at hd
                  rw [← hd]
                have hPmem : P ∈ db.products := by
                  rw [firstProductBy_of_Atoi sql _ _ k hnum] at hP
                  cases hk : keyOf id with
                  | none => simp [hk] at hP
                  | some n =>
                    simp only [hk, Option.some_bind] at hP
                    exact List.mem_of_find?_eq_some hP
                refine ⟨P, _, hP, rfl, hq, hprods, ?_⟩
                intro hnd
                rw [hprods, List.map_map]
                apply List.map_congr_left
                intro r hr
                simp only [Function.comp]
                split_ifs with hc
                · have : r = P := List.inj_on_of_nodup_map hnd hr hPmem hc.1
                  rw [hq, this]
                · rfl

/-- C27 witness: `alice` updates product 1 of the sample store with a body that
names shop 9; the product stays in shop 3. -/
theorem updateProduct_keeps_shop_witness :
    ∃ P q,
      firstProductBy plainSQL sampleDB "1" = some P ∧
      Body.product (lamp.updates { newProduct with ShopID := 3 } 99) = Body.product q ∧
      q.ShopID = P.ShopID ∧
      (updateProduct plainSQL sampleDB 99 (some "7") "1"
          (some { newProduct with ShopID := 9 })).2.products =
        sampleDB.products.map (fun r => if r.ID = P.ID ∧ r.DeletedAt = none then q else r) ∧
      ((sampleDB.products.map fun r => r.ID).Nodup →
        (updateProduct plainSQL sampleDB 99 (some "7") "1"
            (some { newProduct with ShopID := 9 })).2.products.map (fun r => r.ShopID) =
          sampleDB.products.map (fun r => r.ShopID)) :=
  updateProduct_keeps_shop plainSQL sampleDB
    (updateProduct plainSQL sampleDB 99 (some "7") "1" (some { newProduct with ShopID := 9 })).2 99
    (some "7") "1" (some { newProduct with ShopID := 9 })
    (Body.product (lamp.updates { newProduct with ShopID := 3 } 99)) 1 (by decide) (by decide)

end TobeShop
